import Mathlib

/-!
# Synopsys DesignWare XPCS helpers (drivers/net/phy/mdio-xpcs.c)

A shallow embedding of the driver.  C `int` values are `Int`; a value that the
code has already tested to be non-negative is used through `Int.toNat` in the
bitwise operations.  A `u16` argument is reduced modulo `2^16`, a `u32` value
modulo `2^32`.  The MDIO bus is an external collaborator: it is a parameter
that answers every transfer from the history of transfers made so far, and the
embedding records each transfer in a trace.
-/

namespace Xpcs

/-! ## Kernel headers -/

/-- Numeric constants of the kernel headers that the driver includes
(linux/mdio.h, linux/mii.h, linux/ethtool.h, linux/phy.h, linux/phylink.h and
the errno headers).  The headers are not part of the sources at hand, so the
constants are parameters of the embedding. -/
structure Hdr where
  MII_ADDR_C45 : Nat
  MDIO_MMD_PCS : Nat
  MDIO_MMD_AN : Nat
  MDIO_MMD_VEND2 : Nat
  MDIO_CTRL1 : Nat
  MDIO_STAT1 : Nat
  MDIO_STAT2 : Nat
  MII_PHYSID1 : Nat
  MII_PHYSID2 : Nat
  MDIO_PCS_10GBRT_STAT1 : Nat
  MDIO_PCS_10GBRT_STAT2 : Nat
  MDIO_CTRL1_RESET : Nat
  MDIO_STAT1_FAULT : Nat
  MDIO_STAT1_LSTATUS : Nat
  MDIO_STAT2_RXFAULT : Nat
  MDIO_STAT2_TXFAULT : Nat
  MDIO_PCS_10GBRT_STAT1_BLKLK : Nat
  MDIO_PCS_10GBRT_STAT2_ERR : Nat
  MDIO_AN_CTRL1_ENABLE : Nat
  MDIO_AN_CTRL1_RESTART : Nat
  MDIO_AN_STAT1_COMPLETE : Nat
  MDIO_AN_STAT1_LPABLE : Nat
  EFAULT : Nat
  ETIMEDOUT : Nat
  ENODEV : Nat
  EINVAL : Nat
  ETHTOOL_LINK_MODE_Pause_BIT : Nat
  ETHTOOL_LINK_MODE_Asym_Pause_BIT : Nat
  ETHTOOL_LINK_MODE_Autoneg_BIT : Nat
  ETHTOOL_LINK_MODE_1000baseKX_Full_BIT : Nat
  ETHTOOL_LINK_MODE_10000baseKX4_Full_BIT : Nat
  ETHTOOL_LINK_MODE_10000baseKR_Full_BIT : Nat
  ETHTOOL_LINK_MODE_2500baseX_Full_BIT : Nat
  ETHTOOL_LINK_MODE_MASK_NBITS : Nat
  PHY_INTERFACE_MODE_USXGMII : Nat
  PHY_INTERFACE_MODE_MAX : Nat
  SPEED_UNKNOWN : Int
  DUPLEX_FULL : Int
  MLO_PAUSE_SYM : Nat
  MLO_PAUSE_ASYM : Nat

/-- The values of the constants in mainline Linux at the time the driver was
added.  They are used in the examples only; the theorems hold for every `Hdr`
and name the facts about it that they need. -/
def linux : Hdr where
  MII_ADDR_C45 := 0x40000000
  MDIO_MMD_PCS := 3
  MDIO_MMD_AN := 7
  MDIO_MMD_VEND2 := 31
  MDIO_CTRL1 := 0
  MDIO_STAT1 := 1
  MDIO_STAT2 := 8
  MII_PHYSID1 := 2
  MII_PHYSID2 := 3
  MDIO_PCS_10GBRT_STAT1 := 32
  MDIO_PCS_10GBRT_STAT2 := 33
  MDIO_CTRL1_RESET := 0x8000
  MDIO_STAT1_FAULT := 0x0080
  MDIO_STAT1_LSTATUS := 0x0004
  MDIO_STAT2_RXFAULT := 0x0400
  MDIO_STAT2_TXFAULT := 0x0800
  MDIO_PCS_10GBRT_STAT1_BLKLK := 0x0001
  MDIO_PCS_10GBRT_STAT2_ERR := 0x00ff
  MDIO_AN_CTRL1_ENABLE := 0x1000
  MDIO_AN_CTRL1_RESTART := 0x0200
  MDIO_AN_STAT1_COMPLETE := 0x0020
  MDIO_AN_STAT1_LPABLE := 0x0001
  EFAULT := 14
  ETIMEDOUT := 110
  ENODEV := 19
  EINVAL := 22
  ETHTOOL_LINK_MODE_Pause_BIT := 13
  ETHTOOL_LINK_MODE_Asym_Pause_BIT := 14
  ETHTOOL_LINK_MODE_Autoneg_BIT := 6
  ETHTOOL_LINK_MODE_1000baseKX_Full_BIT := 17
  ETHTOOL_LINK_MODE_10000baseKX4_Full_BIT := 18
  ETHTOOL_LINK_MODE_10000baseKR_Full_BIT := 19
  ETHTOOL_LINK_MODE_2500baseX_Full_BIT := 15
  ETHTOOL_LINK_MODE_MASK_NBITS := 74
  PHY_INTERFACE_MODE_USXGMII := 23
  PHY_INTERFACE_MODE_MAX := 24
  SPEED_UNKNOWN := -1
  DUPLEX_FULL := 1
  MLO_PAUSE_SYM := 2
  MLO_PAUSE_ASYM := 1

/-- Modelled from the spec: the SPEED_* constants of linux/ethtool.h (not under
src/); the spec gives the resolved speed as enum{10,100,1000,2500,5000,10000}. -/
def SPEED_10 : Int := 10

/-- Modelled from the spec: see `SPEED_10`. -/
def SPEED_100 : Int := 100

/-- Modelled from the spec: see `SPEED_10`. -/
def SPEED_1000 : Int := 1000

/-- Modelled from the spec: see `SPEED_10`. -/
def SPEED_2500 : Int := 2500

/-- Modelled from the spec: see `SPEED_10`. -/
def SPEED_5000 : Int := 5000

/-- Modelled from the spec: see `SPEED_10`. -/
def SPEED_10000 : Int := 10000

/-- The macro `BIT(nr)` of linux/bits.h: the word with only bit `nr` set. -/
def BIT (nr : Nat) : Nat := 1 <<< nr

/-- The macro `GENMASK(h, l)` of linux/bits.h: the bits `l` .. `h` set. -/
def GENMASK (h l : Nat) : Nat := ((1 <<< (h + 1)) - 1) ^^^ ((1 <<< l) - 1)

/-- Conversion of a non-negative value to `u16`. -/
def u16 (v : Nat) : Nat := v % 2 ^ 16

/-- Conversion of a non-negative value to `u32`. -/
def u32 (v : Nat) : Nat := v % 2 ^ 32

/-- The pattern of `~mask` in a 32-bit `int`. -/
def not32 (mask : Nat) : Nat := (2 ^ 32 - 1) ^^^ mask

/-! ## Link-mode bitmaps -/

/-- A link-mode bitmap (`unsigned long *` in the source): bit `i` of the
number is bit `i` of the bitmap. -/
abbrev linkmode := Nat

/-- The kernel's `test_bit` (used by the macro `phylink_test`). -/
def test_bit (nr : Nat) (addr : linkmode) : Bool := Nat.testBit addr nr

/-- The kernel's `set_bit` / `__set_bit` (used by the macro `phylink_set`). -/
def set_bit (nr : Nat) (addr : linkmode) : linkmode := addr ||| BIT nr

/-- The kernel's `__clear_bit` (used by the macro `phylink_clear`). -/
def clear_bit (nr : Nat) (addr : linkmode) : linkmode := addr ^^^ (addr &&& BIT nr)

/-- The kernel's `linkmode_and(dst, a, b)`: the bitmap written to `dst`. -/
def linkmode_and (a b : linkmode) : linkmode := a &&& b

/-! ## Bus, configuration and link state -/

/-- One transfer on the MDIO bus: a read of a register of the device at `addr`,
or a write of `val` to it. -/
inductive Access where
  | rd (addr regnum : Nat)
  | wr (addr regnum val : Nat)
  deriving DecidableEq

/-- The MDIO bus (`struct mii_bus`), an external collaborator.  `xfer` gives
the value returned by `mdiobus_read` / `mdiobus_write` for a transfer, from the
transfers made before it. -/
structure mii_bus where
  xfer : List Access → Access → Int

/-- The diagnostics `xpcs_read_fault` can print. -/
inductive Warning where
  | link_fault
  | receiver_fault
  | transmitter_fault
  | fifo_fault
  | not_locked
  | has_errors
  deriving DecidableEq

/-- What the driver has done to the outside: the bus transfers, in order, and
the warnings printed, in order. -/
structure World where
  trace : List Access
  warnings : List Warning
  deriving DecidableEq

/-- The fields of `struct phylink_config` the driver uses. -/
structure phylink_config where
  pcs_bus : mii_bus
  pcs_addr : Nat
  pcs_supported : linkmode

/-- The `struct phylink_link_state`. -/
structure phylink_link_state where
  advertising : linkmode
  lp_advertising : linkmode
  interface : Nat
  speed : Int
  duplex : Int
  pause : Nat
  link : Bool
  an_enabled : Bool
  an_complete : Bool
  deriving DecidableEq

/-- The kernel's `mdiobus_read`. -/
def mdiobus_read (bus : mii_bus) (w : World) (addr regnum : Nat) : Int × World :=
  (bus.xfer w.trace (Access.rd addr regnum),
   { w with trace := w.trace ++ [Access.rd addr regnum] })

/-- The kernel's `mdiobus_write`. -/
def mdiobus_write (bus : mii_bus) (w : World) (addr regnum val : Nat) : Int × World :=
  (bus.xfer w.trace (Access.wr addr regnum val),
   { w with trace := w.trace ++ [Access.wr addr regnum val] })

/-! ## Driver constants -/

def SYNOPSYS_XPCS_USXGMII_ID : Nat := 0x7996ced0
def SYNOPSYS_XPCS_USXGMII_MASK : Nat := 0xffffffff

def DW_VENDOR : Nat := BIT 15

def DW_USXGMII_RST : Nat := BIT 10
def DW_USXGMII_EN : Nat := BIT 9
def DW_VR_XS_PCS_DIG_STS : Nat := 0x0010
def DW_RXFIFO_ERR : Nat := GENMASK 6 5

def DW_USXGMII_FULL : Nat := BIT 8
def DW_USXGMII_SS_MASK : Nat := BIT 13 ||| BIT 6 ||| BIT 5
def DW_USXGMII_10000 : Nat := BIT 13 ||| BIT 6
def DW_USXGMII_5000 : Nat := BIT 13 ||| BIT 5
def DW_USXGMII_2500 : Nat := BIT 5
def DW_USXGMII_1000 : Nat := BIT 6
def DW_USXGMII_100 : Nat := BIT 13
def DW_USXGMII_10 : Nat := 0

def DW_SR_AN_ADV1 : Nat := 0x10
def DW_SR_AN_ADV2 : Nat := 0x11
def DW_SR_AN_ADV3 : Nat := 0x12
def DW_SR_AN_LP_ABL1 : Nat := 0x13
def DW_SR_AN_LP_ABL2 : Nat := 0x14
def DW_SR_AN_LP_ABL3 : Nat := 0x15

def DW_C73_PAUSE : Nat := BIT 10
def DW_C73_ASYM_PAUSE : Nat := BIT 11
def DW_C73_AN_ADV_SF : Nat := 0x1
def DW_C73_1000KX : Nat := BIT 5
def DW_C73_10000KX4 : Nat := BIT 6
def DW_C73_10000KR : Nat := BIT 7
def DW_C73_2500KX : Nat := BIT 0
def DW_C73_5000KR : Nat := BIT 1

/-- The array `xpcs_usxgmii_features`, with its terminating entry. -/
def xpcs_usxgmii_features (K : Hdr) : List Nat :=
  [K.ETHTOOL_LINK_MODE_Pause_BIT,
   K.ETHTOOL_LINK_MODE_Asym_Pause_BIT,
   K.ETHTOOL_LINK_MODE_Autoneg_BIT,
   K.ETHTOOL_LINK_MODE_1000baseKX_Full_BIT,
   K.ETHTOOL_LINK_MODE_10000baseKX4_Full_BIT,
   K.ETHTOOL_LINK_MODE_10000baseKR_Full_BIT,
   K.ETHTOOL_LINK_MODE_2500baseX_Full_BIT,
   K.ETHTOOL_LINK_MODE_MASK_NBITS]

/-- The array `xpcs_usxgmii_interfaces`, with its terminating entry. -/
def xpcs_usxgmii_interfaces (K : Hdr) : List Nat :=
  [K.PHY_INTERFACE_MODE_USXGMII,
   K.PHY_INTERFACE_MODE_MAX]

/-- The `struct xpcs_id`. -/
structure xpcs_id where
  id : Nat
  mask : Nat
  supported : List Nat
  interface : List Nat

/-- The table `xpcs_id_list`. -/
def xpcs_id_list (K : Hdr) : List xpcs_id :=
  [{ id := SYNOPSYS_XPCS_USXGMII_ID,
     mask := SYNOPSYS_XPCS_USXGMII_MASK,
     supported := xpcs_usxgmii_features K,
     interface := xpcs_usxgmii_interfaces K }]

/-! ## Register access -/

/-- The local `reg_addr` of `xpcs_read` and `xpcs_write`. -/
def reg_addr (K : Hdr) (dev reg : Nat) : Nat :=
  u32 (K.MII_ADDR_C45 ||| dev <<< 16 ||| reg)

def xpcs_read (K : Hdr) (config : phylink_config) (w : World) (dev reg : Nat) : Int × World :=
  mdiobus_read config.pcs_bus w config.pcs_addr (reg_addr K dev reg)

def xpcs_write (K : Hdr) (config : phylink_config) (w : World) (dev reg val : Nat) :
    Int × World :=
  mdiobus_write config.pcs_bus w config.pcs_addr (reg_addr K dev reg) (u16 val)

def xpcs_read_vendor (K : Hdr) (config : phylink_config) (w : World) (dev reg : Nat) :
    Int × World :=
  xpcs_read K config w dev (DW_VENDOR ||| reg)

def xpcs_write_vendor (K : Hdr) (config : phylink_config) (w : World) (dev reg val : Nat) :
    Int × World :=
  xpcs_write K config w dev (DW_VENDOR ||| reg) val

def xpcs_read_vpcs (K : Hdr) (config : phylink_config) (w : World) (reg : Nat) : Int × World :=
  xpcs_read_vendor K config w K.MDIO_MMD_PCS reg

def xpcs_write_vpcs (K : Hdr) (config : phylink_config) (w : World) (reg val : Nat) :
    Int × World :=
  xpcs_write_vendor K config w K.MDIO_MMD_PCS reg val

/-! ## Reset -/

/-- The `do ... while` loop of `xpcs_poll_reset`, entered with `retries = n + 1`:
the result is the last value read (`ret` after the loop, or the error returned
from inside it).  `msleep` has no effect on the model. -/
def xpcs_poll_reset_loop (K : Hdr) (config : phylink_config) (dev : Nat) :
    Nat → World → Int × World
  | 0, w =>
    -- retries = 1: whatever is read, `--retries` is 0 and the loop ends
    xpcs_read K config w dev K.MDIO_CTRL1
  | n + 1, w =>
    let (ret, w) := xpcs_read K config w dev K.MDIO_CTRL1
    if ret < 0 then (ret, w)
    else if ret.toNat &&& K.MDIO_CTRL1_RESET ≠ 0 then
      xpcs_poll_reset_loop K config dev n w
    else (ret, w)

def xpcs_poll_reset (K : Hdr) (config : phylink_config) (w : World) (dev : Nat) : Int × World :=
  let retries := 12
  let (ret, w) := xpcs_poll_reset_loop K config dev (retries - 1) w
  if ret < 0 then (ret, w)
  else (if ret.toNat &&& K.MDIO_CTRL1_RESET ≠ 0 then -(K.ETIMEDOUT : Int) else 0, w)

def xpcs_soft_reset (K : Hdr) (config : phylink_config) (w : World) (dev : Nat) : Int × World :=
  let (ret, w) := xpcs_write K config w dev K.MDIO_CTRL1 K.MDIO_CTRL1_RESET
  if ret < 0 then (ret, w)
  else xpcs_poll_reset K config w dev

/-! ## Fault and link status -/

/-- The macro `xpcs_warn`: the diagnostic is printed only when `state->link`. -/
def xpcs_warn (w : World) (state : phylink_link_state) (msg : Warning) : World :=
  if state.link then { w with warnings := w.warnings ++ [msg] } else w

def xpcs_read_fault (K : Hdr) (config : phylink_config) (w : World)
    (state : phylink_link_state) : Int × World :=
  let (ret, w) := xpcs_read K config w K.MDIO_MMD_PCS K.MDIO_STAT1
  if ret < 0 then (ret, w)
  else if ret.toNat &&& K.MDIO_STAT1_FAULT ≠ 0 then
    (-(K.EFAULT : Int), xpcs_warn w state Warning.link_fault)
  else
  let (ret, w) := xpcs_read K config w K.MDIO_MMD_PCS K.MDIO_STAT2
  if ret < 0 then (ret, w)
  else if ret.toNat &&& K.MDIO_STAT2_RXFAULT ≠ 0 then
    (-(K.EFAULT : Int), xpcs_warn w state Warning.receiver_fault)
  else if ret.toNat &&& K.MDIO_STAT2_TXFAULT ≠ 0 then
    (-(K.EFAULT : Int), xpcs_warn w state Warning.transmitter_fault)
  else
  let (ret, w) := xpcs_read_vendor K config w K.MDIO_MMD_PCS DW_VR_XS_PCS_DIG_STS
  if ret < 0 then (ret, w)
  else if ret.toNat &&& DW_RXFIFO_ERR ≠ 0 then
    (-(K.EFAULT : Int), xpcs_warn w state Warning.fifo_fault)
  else
  let (ret, w) := xpcs_read K config w K.MDIO_MMD_PCS K.MDIO_PCS_10GBRT_STAT1
  if ret < 0 then (ret, w)
  else
  let w := if ret.toNat &&& K.MDIO_PCS_10GBRT_STAT1_BLKLK = 0
    then xpcs_warn w state Warning.not_locked else w
  let (ret, w) := xpcs_read K config w K.MDIO_MMD_PCS K.MDIO_PCS_10GBRT_STAT2
  if ret < 0 then (ret, w)
  else
  let w := if ret.toNat &&& K.MDIO_PCS_10GBRT_STAT2_ERR ≠ 0
    then xpcs_warn w state Warning.has_errors else w
  (0, w)

def xpcs_read_link (K : Hdr) (config : phylink_config) (w : World) : Int × World :=
  let link := true
  let (ret, w) := xpcs_read K config w K.MDIO_MMD_PCS K.MDIO_STAT1
  if ret < 0 then (ret, w)
  else
  let link := if ret.toNat &&& K.MDIO_STAT1_LSTATUS = 0 then false else link
  let (ret, w) := xpcs_read K config w K.MDIO_MMD_AN K.MDIO_STAT1
  if ret < 0 then (ret, w)
  else
  let link := if ret.toNat &&& K.MDIO_STAT1_LSTATUS = 0 then false else link
  (if link then 1 else 0, w)

/-! ## Speed -/

def xpcs_get_max_usxgmii_speed (K : Hdr) (supported : linkmode) : Int :=
  let max := K.SPEED_UNKNOWN
  let max := if test_bit K.ETHTOOL_LINK_MODE_1000baseKX_Full_BIT supported
    then SPEED_1000 else max
  let max := if test_bit K.ETHTOOL_LINK_MODE_2500baseX_Full_BIT supported
    then SPEED_2500 else max
  let max := if test_bit K.ETHTOOL_LINK_MODE_10000baseKX4_Full_BIT supported
    then SPEED_10000 else max
  let max := if test_bit K.ETHTOOL_LINK_MODE_10000baseKR_Full_BIT supported
    then SPEED_10000 else max
  max

/-- The `switch (speed)` of `xpcs_config_usxgmii`: the speed-select code, or
`none` for the `default` branch. -/
def speed_sel (speed : Int) : Option Nat :=
  if speed = SPEED_10 then some DW_USXGMII_10
  else if speed = SPEED_100 then some DW_USXGMII_100
  else if speed = SPEED_1000 then some DW_USXGMII_1000
  else if speed = SPEED_2500 then some DW_USXGMII_2500
  else if speed = SPEED_5000 then some DW_USXGMII_5000
  else if speed = SPEED_10000 then some DW_USXGMII_10000
  else none

def xpcs_config_usxgmii (K : Hdr) (config : phylink_config) (w : World) (speed : Int) :
    Int × World :=
  match speed_sel speed with
  | none => (-(K.EINVAL : Int), w)
  | some speed_sel =>
    let (ret, w) := xpcs_read_vpcs K config w K.MDIO_CTRL1
    if ret < 0 then (ret, w)
    else
    let (ret, w) := xpcs_write_vpcs K config w K.MDIO_CTRL1 (ret.toNat ||| DW_USXGMII_EN)
    if ret < 0 then (ret, w)
    else
    let (ret, w) := xpcs_read K config w K.MDIO_MMD_VEND2 K.MDIO_CTRL1
    if ret < 0 then (ret, w)
    else
    let ret := ret.toNat &&& not32 DW_USXGMII_SS_MASK
    let ret := ret ||| (speed_sel ||| DW_USXGMII_FULL)
    let (ret, w) := xpcs_write K config w K.MDIO_MMD_VEND2 K.MDIO_CTRL1 ret
    if ret < 0 then (ret, w)
    else
    let (ret, w) := xpcs_read_vpcs K config w K.MDIO_CTRL1
    if ret < 0 then (ret, w)
    else xpcs_write_vpcs K config w K.MDIO_CTRL1 (ret.toNat ||| DW_USXGMII_RST)

/-! ## Autonegotiation -/

def xpcs_config_aneg_c73 (K : Hdr) (config : phylink_config) (w : World) : Int × World :=
  -- SR_AN_ADV3
  let adv := 0
  let adv := if test_bit K.ETHTOOL_LINK_MODE_2500baseX_Full_BIT config.pcs_supported
    then adv ||| DW_C73_2500KX else adv
  let (ret, w) := xpcs_write K config w K.MDIO_MMD_AN DW_SR_AN_ADV3 adv
  if ret < 0 then (ret, w)
  else
  -- SR_AN_ADV2
  let adv := 0
  let adv := if test_bit K.ETHTOOL_LINK_MODE_1000baseKX_Full_BIT config.pcs_supported
    then adv ||| DW_C73_1000KX else adv
  let adv := if test_bit K.ETHTOOL_LINK_MODE_10000baseKX4_Full_BIT config.pcs_supported
    then adv ||| DW_C73_10000KX4 else adv
  let adv := if test_bit K.ETHTOOL_LINK_MODE_10000baseKR_Full_BIT config.pcs_supported
    then adv ||| DW_C73_10000KR else adv
  let (ret, w) := xpcs_write K config w K.MDIO_MMD_AN DW_SR_AN_ADV2 adv
  if ret < 0 then (ret, w)
  else
  -- SR_AN_ADV1
  let adv := DW_C73_AN_ADV_SF
  let adv := if test_bit K.ETHTOOL_LINK_MODE_Pause_BIT config.pcs_supported
    then adv ||| DW_C73_PAUSE else adv
  let adv := if test_bit K.ETHTOOL_LINK_MODE_Asym_Pause_BIT config.pcs_supported
    then adv ||| DW_C73_ASYM_PAUSE else adv
  xpcs_write K config w K.MDIO_MMD_AN DW_SR_AN_ADV1 adv

def xpcs_config_aneg (K : Hdr) (config : phylink_config) (w : World) : Int × World :=
  let (ret, w) := xpcs_config_aneg_c73 K config w
  if ret < 0 then (ret, w)
  else
  let (ret, w) := xpcs_read K config w K.MDIO_MMD_AN K.MDIO_CTRL1
  if ret < 0 then (ret, w)
  else
  let ret := ret.toNat ||| (K.MDIO_AN_CTRL1_ENABLE ||| K.MDIO_AN_CTRL1_RESTART)
  xpcs_write K config w K.MDIO_MMD_AN K.MDIO_CTRL1 ret

def xpcs_aneg_done (K : Hdr) (config : phylink_config) (w : World)
    (_state : phylink_link_state) : Int × World :=
  let (ret, w) := xpcs_read K config w K.MDIO_MMD_AN K.MDIO_STAT1
  if ret < 0 then (ret, w)
  else if ret.toNat &&& K.MDIO_AN_STAT1_COMPLETE ≠ 0 then
    let (ret, w) := xpcs_read K config w K.MDIO_MMD_AN DW_SR_AN_LP_ABL1
    if ret < 0 then (ret, w)
    -- Check if Aneg outcome is valid
    else if ret.toNat &&& DW_C73_AN_ADV_SF = 0 then (0, w)
    else (1, w)
  else (0, w)

/-- The function `xpcs_read_lpa`; `lp` is the bitmap `state->lp_advertising`
as the function builds it, stored in the state at every exit. -/
def xpcs_read_lpa (K : Hdr) (config : phylink_config) (w : World)
    (state : phylink_link_state) : Int × World × phylink_link_state :=
  let (ret, w) := xpcs_read K config w K.MDIO_MMD_AN K.MDIO_STAT1
  if ret < 0 then (ret, w, state)
  else if ret.toNat &&& K.MDIO_AN_STAT1_LPABLE = 0 then
    (0, w, { state with
      lp_advertising := clear_bit K.ETHTOOL_LINK_MODE_Autoneg_BIT state.lp_advertising })
  else
  let lp := set_bit K.ETHTOOL_LINK_MODE_Autoneg_BIT state.lp_advertising
  -- Clause 73 outcome
  let (ret, w) := xpcs_read K config w K.MDIO_MMD_AN DW_SR_AN_LP_ABL3
  if ret < 0 then (ret, w, { state with lp_advertising := lp })
  else
  let lp := if ret.toNat &&& DW_C73_2500KX ≠ 0
    then set_bit K.ETHTOOL_LINK_MODE_2500baseX_Full_BIT lp else lp
  let (ret, w) := xpcs_read K config w K.MDIO_MMD_AN DW_SR_AN_LP_ABL2
  if ret < 0 then (ret, w, { state with lp_advertising := lp })
  else
  let lp := if ret.toNat &&& DW_C73_1000KX ≠ 0
    then set_bit K.ETHTOOL_LINK_MODE_1000baseKX_Full_BIT lp else lp
  let lp := if ret.toNat &&& DW_C73_10000KX4 ≠ 0
    then set_bit K.ETHTOOL_LINK_MODE_10000baseKX4_Full_BIT lp else lp
  let lp := if ret.toNat &&& DW_C73_10000KR ≠ 0
    then set_bit K.ETHTOOL_LINK_MODE_10000baseKR_Full_BIT lp else lp
  let (ret, w) := xpcs_read K config w K.MDIO_MMD_AN DW_SR_AN_LP_ABL1
  if ret < 0 then (ret, w, { state with lp_advertising := lp })
  else
  let lp := if ret.toNat &&& DW_C73_PAUSE ≠ 0
    then set_bit K.ETHTOOL_LINK_MODE_Pause_BIT lp else lp
  let lp := if ret.toNat &&& DW_C73_ASYM_PAUSE ≠ 0
    then set_bit K.ETHTOOL_LINK_MODE_Asym_Pause_BIT lp else lp
  (0, w, { state with lp_advertising := linkmode_and lp state.advertising })

def xpcs_resolve_lpa (K : Hdr) (_config : phylink_config) (state : phylink_link_state) :
    phylink_link_state :=
  let max_speed := xpcs_get_max_usxgmii_speed K state.lp_advertising
  { state with
    pause := K.MLO_PAUSE_SYM ||| K.MLO_PAUSE_ASYM
    speed := max_speed
    duplex := K.DUPLEX_FULL }

/-! ## Probe and validation -/

def xpcs_get_id (K : Hdr) (config : phylink_config) (w : World) : Nat × World :=
  let (ret, w) := xpcs_read K config w K.MDIO_MMD_PCS K.MII_PHYSID1
  if ret < 0 then (0xffffffff, w)
  else
  let id := u32 (ret.toNat <<< 16)
  let (ret, w) := xpcs_read K config w K.MDIO_MMD_PCS K.MII_PHYSID2
  if ret < 0 then (0xffffffff, w)
  else (u32 (id ||| ret.toNat), w)

/-- The first loop of `xpcs_hw_probe`: the first entry of the table that the
identifier matches (`match` in the source), `none` for `NULL`. -/
def xpcs_find_match (id : Nat) : List xpcs_id → Option xpcs_id
  | [] => none
  | entry :: rest =>
    if id &&& entry.mask = entry.id then some entry
    else xpcs_find_match id rest

/-- The second loop of `xpcs_hw_probe` and the test after it: the entry
`match->interface[i]` at which the scan of the terminated array stops.  The
array ends with `PHY_INTERFACE_MODE_MAX`; a list without it would be read past
its end, which is `none` here. -/
def xpcs_scan_interface (K : Hdr) (interface : Nat) : List Nat → Option Nat
  | [] => none
  | x :: rest =>
    if x = K.PHY_INTERFACE_MODE_MAX then some x
    else if x = interface then some x
    else xpcs_scan_interface K interface rest

/-- The third loop of `xpcs_hw_probe`: `set_bit` for every entry before the
terminating `__ETHTOOL_LINK_MODE_MASK_NBITS`. -/
def xpcs_set_supported (K : Hdr) : List Nat → linkmode → linkmode
  | [], supported => supported
  | x :: rest, supported =>
    if x = K.ETHTOOL_LINK_MODE_MASK_NBITS then supported
    else xpcs_set_supported K rest (set_bit x supported)

def xpcs_hw_probe (K : Hdr) (config : phylink_config) (w : World) (interface : Nat)
    (supported : linkmode) : Int × World × linkmode :=
  let (xpcs_id, w) := xpcs_get_id K config w
  match xpcs_find_match xpcs_id (xpcs_id_list K) with
  | none => (-(K.ENODEV : Int), w, supported)
  | some mtch =>
    if xpcs_scan_interface K interface mtch.interface = some K.PHY_INTERFACE_MODE_MAX then
      (-(K.EINVAL : Int), w, supported)
    else
      (0, w, xpcs_set_supported K mtch.supported supported)

/-- The function `xpcs_validate`: the new `supported` bitmap and the new state. -/
def xpcs_validate (config : phylink_config) (supported : linkmode)
    (state : phylink_link_state) : linkmode × phylink_link_state :=
  (linkmode_and supported config.pcs_supported,
   { state with advertising := linkmode_and state.advertising config.pcs_supported })

/-! ## Polling -/

def xpcs_get_state (K : Hdr) (config : phylink_config) (w : World)
    (state : phylink_link_state) : World × phylink_link_state :=
  -- Link needs to be read first ...
  let (ret, w) := xpcs_read_link K config w
  let state := { state with link := if ret > 0 then true else false }
  -- ... and then we check the faults.
  let (ret, w) := xpcs_read_fault K config w state
  if ret ≠ 0 then
    let (ret, w) := xpcs_soft_reset K config w K.MDIO_MMD_PCS
    if ret ≠ 0 then (w, state)
    else
    let state := { state with link := false }
    let (_, w) := xpcs_config_aneg K config w
    (w, state)
  else
  if state.link then
    let (ret, w) := xpcs_aneg_done K config w state
    if ret ≠ 0 then
      let state := { state with an_complete := true }
      let (_, w, state) := xpcs_read_lpa K config w state
      (w, xpcs_resolve_lpa K config state)
    else (w, state)
  else (w, state)

def xpcs_config (K : Hdr) (config : phylink_config) (w : World) (_mode : Nat)
    (state : phylink_link_state) : World :=
  if state.an_enabled then (xpcs_config_aneg K config w).2 else w

def xpcs_link_up (K : Hdr) (config : phylink_config) (w : World) (_mode : Nat)
    (_interface : Nat) (speed : Int) : World :=
  (xpcs_config_usxgmii K config w speed).2

/-! ## Buses and states used in the examples -/

/-- A bus whose registers hold fixed values: a read of register `regnum`
returns `regs regnum` and every write succeeds. -/
def regfile_bus (regs : Nat → Int) : mii_bus where
  xfer := fun _ a =>
    match a with
    | Access.rd _ regnum => regs regnum
    | Access.wr _ _ _ => 0

/-- A bus that answers its `n`-th transfer with the `n`-th entry of `script`
(and with 0 once the script is used up). -/
def script_bus (script : List Int) : mii_bus where
  xfer := fun h _ => script.getD h.length 0

/-- The world before any transfer. -/
def World.init : World := { trace := [], warnings := [] }

/-- A link state with every field cleared, but for the given bitmaps. -/
def state_of (advertising lp_advertising : linkmode) : phylink_link_state :=
  { advertising := advertising, lp_advertising := lp_advertising, interface := 0,
    speed := 0, duplex := 0, pause := 0, link := false, an_enabled := false,
    an_complete := false }

/-- The world after `i` successive reads of CTRL1 of device `dev`, from `w` on. -/
def poll_world (K : Hdr) (config : phylink_config) (dev : Nat) (w : World) (i : Nat) : World :=
  (fun w => (xpcs_read K config w dev K.MDIO_CTRL1).2)^[i] w

/-- The value returned by read number `i` (from 0) of a run of successive reads
of CTRL1 of device `dev` that starts in `w`. -/
def poll_read (K : Hdr) (config : phylink_config) (dev : Nat) (w : World) (i : Nat) : Int :=
  (xpcs_read K config (poll_world K config dev w i) dev K.MDIO_CTRL1).1

/-- The ADV3 word of the advertisement layout, as the specification gives it:
bit 0 iff 2500baseX_Full is in `D`.  To be compared with the word
`xpcs_config_aneg_c73` writes. -/
def layout_ADV3 (K : Hdr) (D : linkmode) : Nat :=
  if test_bit K.ETHTOOL_LINK_MODE_2500baseX_Full_BIT D then 2 ^ 0 else 0

/-- The ADV2 word of the advertisement layout, as the specification gives it:
bit 5 iff 1000baseKX_Full, bit 6 iff 10000baseKX4_Full, bit 7 iff
10000baseKR_Full is in `D`. -/
def layout_ADV2 (K : Hdr) (D : linkmode) : Nat :=
  (if test_bit K.ETHTOOL_LINK_MODE_1000baseKX_Full_BIT D then 2 ^ 5 else 0) +
  (if test_bit K.ETHTOOL_LINK_MODE_10000baseKX4_Full_BIT D then 2 ^ 6 else 0) +
  (if test_bit K.ETHTOOL_LINK_MODE_10000baseKR_Full_BIT D then 2 ^ 7 else 0)

/-- The ADV1 word of the advertisement layout, as the specification gives it:
the selector field 0x1, bit 10 iff Pause, bit 11 iff Asym_Pause is in `D`. -/
def layout_ADV1 (K : Hdr) (D : linkmode) : Nat :=
  0x1 +
  (if test_bit K.ETHTOOL_LINK_MODE_Pause_BIT D then 2 ^ 10 else 0) +
  (if test_bit K.ETHTOOL_LINK_MODE_Asym_Pause_BIT D then 2 ^ 11 else 0)

/-- The bitmap of the six modes that the advertisement words carry:
1000baseKX_Full, 2500baseX_Full, 10000baseKX4_Full, 10000baseKR_Full, Pause
and Asym_Pause. -/
def six_modes (K : Hdr) : linkmode :=
  set_bit K.ETHTOOL_LINK_MODE_1000baseKX_Full_BIT
    (set_bit K.ETHTOOL_LINK_MODE_2500baseX_Full_BIT
      (set_bit K.ETHTOOL_LINK_MODE_10000baseKX4_Full_BIT
        (set_bit K.ETHTOOL_LINK_MODE_10000baseKR_Full_BIT
          (set_bit K.ETHTOOL_LINK_MODE_Pause_BIT
            (set_bit K.ETHTOOL_LINK_MODE_Asym_Pause_BIT 0)))))

/-- A device that supports 2500baseX_Full, 1000baseKX_Full, 10000baseKR_Full
and Pause (bits 15, 17, 19 and 13), on a bus where AN STAT1 reads 0x1
(link partner able) and LP_ABL3, LP_ABL2, LP_ABL1 read 0x1, 0xa0, 0x401. -/
def partner_config : phylink_config :=
  { pcs_bus := regfile_bus (fun regnum =>
      if regnum = 0x40070001 then 0x1
      else if regnum = 0x40070015 then 0x1
      else if regnum = 0x40070014 then 0xa0
      else if regnum = 0x40070013 then 0x401
      else 0),
    pcs_addr := 0,
    pcs_supported := 0xaa000 }

/-- Whether a transfer is a register read. -/
def Access.is_read : Access → Bool
  | Access.rd _ _ => true
  | Access.wr _ _ _ => false

/-- A bus on which the link reads report link up (0x4 twice), and the next two
transfers fail with -5 (-EIO). -/
def failing_reset_config : phylink_config :=
  { pcs_bus := script_bus [0x4, 0x4, -5, -5], pcs_addr := 0, pcs_supported := 0 }

/-- A bus on which PCS STAT1 reads 0x84 (link up, fault), AN STAT1 reads 0x4
(link up), every other register reads 0 and every write succeeds. -/
def faulty_config : phylink_config :=
  { pcs_bus := regfile_bus (fun regnum =>
      if regnum = 0x40030001 then 0x84
      else if regnum = 0x40070001 then 0x4
      else 0),
    pcs_addr := 0,
    pcs_supported := 0 }

/-- A bus on which AN STAT1 reads 0x20 (autonegotiation complete) and LP_ABL1
reads 0x3: a selector field (bits 4:0) of 0x3, other than 0x1. -/
def selector3_config : phylink_config :=
  { pcs_bus := regfile_bus (fun regnum =>
      if regnum = 0x40070001 then 0x20
      else if regnum = 0x40070013 then 0x3
      else 0),
    pcs_addr := 0,
    pcs_supported := 0 }

/-- A healthy bus with the link up and autonegotiation complete, whose partner
is not able to autonegotiate: PCS STAT1 reads 0x4, AN STAT1 0x24, LP_ABL1 0x1,
the 10GBASE-R status register 1 reads 0x1 (block lock), all else 0. -/
def not_able_config : phylink_config :=
  { pcs_bus := regfile_bus (fun regnum =>
      if regnum = 0x40030001 then 0x4
      else if regnum = 0x40070001 then 0x24
      else if regnum = 0x40070013 then 0x1
      else if regnum = 0x40030020 then 0x1
      else 0),
    pcs_addr := 0,
    pcs_supported := 0 }

/-- A healthy bus with the link up, autonegotiation complete and an able
partner (AN STAT1 reads 0x25), on which LP_ABL3 reads 0x1 and the read of
LP_ABL2 fails with -5. -/
def failing_lpa_config : phylink_config :=
  { pcs_bus := regfile_bus (fun regnum =>
      if regnum = 0x40030001 then 0x4
      else if regnum = 0x40070001 then 0x25
      else if regnum = 0x40070013 then 0x1
      else if regnum = 0x40070015 then 0x1
      else if regnum = 0x40070014 then -5
      else if regnum = 0x40030020 then 0x1
      else 0),
    pcs_addr := 0,
    pcs_supported := 0 }

/-- A healthy bus with the link up, autonegotiation complete and an able
partner (AN STAT1 reads 0x25) whose words LP_ABL3, LP_ABL2, LP_ABL1 read 0x1,
0xa0, 0x401. -/
def resolved_config : phylink_config :=
  { pcs_bus := regfile_bus (fun regnum =>
      if regnum = 0x40030001 then 0x4
      else if regnum = 0x40070001 then 0x25
      else if regnum = 0x40070013 then 0x401
      else if regnum = 0x40070014 then 0xa0
      else if regnum = 0x40070015 then 0x1
      else if regnum = 0x40030020 then 0x1
      else 0),
    pcs_addr := 0,
    pcs_supported := 0 }

/-- A bus whose first transfer fails with -5 (-EIO). -/
def dead_bus_config : phylink_config :=
  { pcs_bus := script_bus [-5], pcs_addr := 0, pcs_supported := 0 }

/-- A bus on which the link is up and the fault check is healthy (the first
seven reads give 0x4, 0x4, 0x4, 0, 0, 0x1, 0), and the eighth transfer, the
read of AN STAT1 by the completion check, fails with -5 (-EIO). -/
def failing_done_config : phylink_config :=
  { pcs_bus := script_bus [0x4, 0x4, 0x4, 0, 0, 0x1, 0, -5], pcs_addr := 0,
    pcs_supported := 0 }

/-- From world `w` to world `w'` only register reads were made. -/
def reads_only (w w' : World) : Prop :=
  ∃ l, w'.trace = w.trace ++ l ∧ ∀ a ∈ l, Access.is_read a = true

/-! ## Bit-level facts -/

theorem test_bit_set_bit (i nr : Nat) (bm : linkmode) :
    test_bit i (set_bit nr bm) = (test_bit i bm || decide (nr = i)) := by
  simp [test_bit, set_bit, BIT, Nat.one_shiftLeft, Nat.testBit_two_pow]

theorem test_bit_zero (i : Nat) : test_bit i 0 = false := by
  simp [test_bit]

theorem test_bit_linkmode_and (i : Nat) (a b : linkmode) :
    test_bit i (linkmode_and a b) = (test_bit i a && test_bit i b) := by
  simp [test_bit, linkmode_and]

/-! ## Speed resolution -/

/-- C3: the maximum speed is 10000 when 10000baseKX4_Full or 10000baseKR_Full is
in the set, else 2500 when 2500baseX_Full is, else 1000 when 1000baseKX_Full
is, else SPEED_UNKNOWN; two sets that agree on these four modes give the same
speed; and {1000baseKX, 2500baseX} gives 2500, {10000baseKX4} gives 10000 and
the empty set gives SPEED_UNKNOWN. -/
theorem max_usxgmii_speed_priority :
    (∀ (K : Hdr) (P : linkmode),
      xpcs_get_max_usxgmii_speed K P =
        if test_bit K.ETHTOOL_LINK_MODE_10000baseKX4_Full_BIT P = true ∨
            test_bit K.ETHTOOL_LINK_MODE_10000baseKR_Full_BIT P = true then 10000
        else if test_bit K.ETHTOOL_LINK_MODE_2500baseX_Full_BIT P = true then 2500
        else if test_bit K.ETHTOOL_LINK_MODE_1000baseKX_Full_BIT P = true then 1000
        else K.SPEED_UNKNOWN) ∧
    (∀ (K : Hdr) (P Q : linkmode),
      test_bit K.ETHTOOL_LINK_MODE_1000baseKX_Full_BIT P =
        test_bit K.ETHTOOL_LINK_MODE_1000baseKX_Full_BIT Q →
      test_bit K.ETHTOOL_LINK_MODE_2500baseX_Full_BIT P =
        test_bit K.ETHTOOL_LINK_MODE_2500baseX_Full_BIT Q →
      test_bit K.ETHTOOL_LINK_MODE_10000baseKX4_Full_BIT P =
        test_bit K.ETHTOOL_LINK_MODE_10000baseKX4_Full_BIT Q →
      test_bit K.ETHTOOL_LINK_MODE_10000baseKR_Full_BIT P =
        test_bit K.ETHTOOL_LINK_MODE_10000baseKR_Full_BIT Q →
      xpcs_get_max_usxgmii_speed K P = xpcs_get_max_usxgmii_speed K Q) ∧
    xpcs_get_max_usxgmii_speed linux
      (set_bit linux.ETHTOOL_LINK_MODE_1000baseKX_Full_BIT
        (set_bit linux.ETHTOOL_LINK_MODE_2500baseX_Full_BIT 0)) = 2500 ∧
    xpcs_get_max_usxgmii_speed linux
      (set_bit linux.ETHTOOL_LINK_MODE_10000baseKX4_Full_BIT 0) = 10000 ∧
    (∀ K : Hdr, xpcs_get_max_usxgmii_speed K 0 = K.SPEED_UNKNOWN) := by
  refine ⟨?_, ?_, ?_, ?_, ?_⟩
  · intro K P
    simp only [xpcs_get_max_usxgmii_speed, SPEED_1000, SPEED_2500, SPEED_10000]
    cases test_bit K.ETHTOOL_LINK_MODE_10000baseKX4_Full_BIT P <;>
    cases test_bit K.ETHTOOL_LINK_MODE_10000baseKR_Full_BIT P <;>
    cases test_bit K.ETHTOOL_LINK_MODE_2500baseX_Full_BIT P <;>
    cases test_bit K.ETHTOOL_LINK_MODE_1000baseKX_Full_BIT P <;> simp
  · intro K P Q h1 h2 h3 h4
    simp only [xpcs_get_max_usxgmii_speed, h1, h2, h3, h4]
  · decide
  · decide
  · intro K
    simp [xpcs_get_max_usxgmii_speed, test_bit]

/-! ## Validation -/

/-- C4: `xpcs_validate` leaves `supported` = R ∩ D and `state.advertising` =
A ∩ D (bit by bit), so both are subsets of D, and validate(S, S, D) gives
S ∩ D twice; it is a total function and every other field of the link state
keeps its value. -/
theorem validate_caps_to_device (config : phylink_config) (R : linkmode)
    (state : phylink_link_state) :
    (∀ i, test_bit i (xpcs_validate config R state).1 =
      (test_bit i R && test_bit i config.pcs_supported)) ∧
    (∀ i, test_bit i (xpcs_validate config R state).2.advertising =
      (test_bit i state.advertising && test_bit i config.pcs_supported)) ∧
    (∀ i, test_bit i (xpcs_validate config R state).1 = true →
      test_bit i config.pcs_supported = true) ∧
    (∀ i, test_bit i (xpcs_validate config R state).2.advertising = true →
      test_bit i config.pcs_supported = true) ∧
    (xpcs_validate config R { state with advertising := R }).1 =
      (xpcs_validate config R { state with advertising := R }).2.advertising ∧
    (xpcs_validate config R state).2 =
      { state with advertising := (xpcs_validate config R state).2.advertising } := by
  refine ⟨?_, ?_, ?_, ?_, ?_, ?_⟩
  · intro i
    simp [xpcs_validate, test_bit_linkmode_and]
  · intro i
    simp [xpcs_validate, test_bit_linkmode_and]
  · intro i h
    simp [xpcs_validate, test_bit_linkmode_and] at h
    exact h.2
  · intro i h
    simp [xpcs_validate, test_bit_linkmode_and] at h
    exact h.2
  · simp [xpcs_validate]
  · simp [xpcs_validate]

/-! ## Link status -/

/-- C5: with `pcs` the read of PCS STAT1 and `an` the read of AN STAT1 that
follows it, `xpcs_read_link` returns the error of the first read that fails,
and otherwise 1 when the link-status bit is set in both values and 0 in the
three other combinations; so it returns 1 only if both reads succeed with the
bit set. -/
theorem read_link_double_and (K : Hdr) (config : phylink_config) (w : World) :
    let pcs := xpcs_read K config w K.MDIO_MMD_PCS K.MDIO_STAT1
    let an := xpcs_read K config pcs.2 K.MDIO_MMD_AN K.MDIO_STAT1
    ((xpcs_read_link K config w).1 =
      if pcs.1 < 0 then pcs.1
      else if an.1 < 0 then an.1
      else if pcs.1.toNat &&& K.MDIO_STAT1_LSTATUS ≠ 0 ∧
          an.1.toNat &&& K.MDIO_STAT1_LSTATUS ≠ 0 then 1
      else 0) ∧
    ((xpcs_read_link K config w).1 = 1 ↔
      0 ≤ pcs.1 ∧ 0 ≤ an.1 ∧ pcs.1.toNat &&& K.MDIO_STAT1_LSTATUS ≠ 0 ∧
        an.1.toNat &&& K.MDIO_STAT1_LSTATUS ≠ 0) := by
  intro pcs an
  have key : (xpcs_read_link K config w).1 =
      if pcs.1 < 0 then pcs.1
      else if an.1 < 0 then an.1
      else if pcs.1.toNat &&& K.MDIO_STAT1_LSTATUS ≠ 0 ∧
          an.1.toNat &&& K.MDIO_STAT1_LSTATUS ≠ 0 then 1
      else 0 := by
    simp only [xpcs_read_link, pcs, an]
    split_ifs <;> simp_all
  refine ⟨key, ?_⟩
  rw [key]
  split_ifs with h1 h2 h3
  · constructor
    · intro h; omega
    · intro h; omega
  · constructor
    · intro h; omega
    · intro h; omega
  · constructor
    · intro _; exact ⟨by omega, by omega, h3.1, h3.2⟩
    · intro _; rfl
  · constructor
    · intro h; omega
    · intro h; exact absurd ⟨h.2.2.1, h.2.2.2⟩ h3

/-! ## Fault check -/

/-- C6: when the read of PCS STAT1 succeeds with the fault bit set,
`xpcs_read_fault` returns -EFAULT and that read is the only bus transfer it
makes. -/
theorem read_fault_stops_at_stat1 (K : Hdr) (config : phylink_config) (w : World)
    (state : phylink_link_state)
    (hok : 0 ≤ (xpcs_read K config w K.MDIO_MMD_PCS K.MDIO_STAT1).1)
    (hfault : (xpcs_read K config w K.MDIO_MMD_PCS K.MDIO_STAT1).1.toNat &&&
      K.MDIO_STAT1_FAULT ≠ 0) :
    (xpcs_read_fault K config w state).1 = -(K.EFAULT : Int) ∧
    (xpcs_read_fault K config w state).2.trace =
      w.trace ++ [Access.rd config.pcs_addr (reg_addr K K.MDIO_MMD_PCS K.MDIO_STAT1)] := by
  have htr : (xpcs_read K config w K.MDIO_MMD_PCS K.MDIO_STAT1).2.trace =
      w.trace ++ [Access.rd config.pcs_addr (reg_addr K K.MDIO_MMD_PCS K.MDIO_STAT1)] := rfl
  unfold xpcs_read_fault
  rcases h : xpcs_read K config w K.MDIO_MMD_PCS K.MDIO_STAT1 with ⟨ret, w1⟩
  rw [h] at hok hfault htr
  have hneg : ¬ ret < 0 := by simpa using hok
  simp only [] at hfault htr
  simp only [hneg, hfault, if_false, ne_eq, not_false_eq_true, if_true, true_and]
  simp only [xpcs_warn]
  split_ifs <;> exact htr

/-- A bus with the fault bit set in every register: one read, then -EFAULT. -/
theorem read_fault_stops_at_stat1_witness :
    (xpcs_read_fault linux
        { pcs_bus := regfile_bus (fun _ => 0x80), pcs_addr := 0, pcs_supported := 0 }
        World.init (state_of 0 0)).1 = -14 ∧
    (xpcs_read_fault linux
        { pcs_bus := regfile_bus (fun _ => 0x80), pcs_addr := 0, pcs_supported := 0 }
        World.init (state_of 0 0)).2.trace = [] ++ [Access.rd 0 0x40030001] :=
  read_fault_stops_at_stat1 linux
    { pcs_bus := regfile_bus (fun _ => 0x80), pcs_addr := 0, pcs_supported := 0 }
    World.init (state_of 0 0) (by decide) (by decide)

/-! ## Speed programming -/

/-- C9: for a speed other than 10, 100, 1000, 2500, 5000 and 10000,
`xpcs_config_usxgmii` returns -EINVAL and makes no bus transfer: the world is
the one it started in. -/
theorem config_usxgmii_invalid_speed (K : Hdr) (config : phylink_config) (w : World)
    (speed : Int) (h10 : speed ≠ 10) (h100 : speed ≠ 100) (h1000 : speed ≠ 1000)
    (h2500 : speed ≠ 2500) (h5000 : speed ≠ 5000) (h10000 : speed ≠ 10000) :
    xpcs_config_usxgmii K config w speed = (-(K.EINVAL : Int), w) := by
  simp [xpcs_config_usxgmii, speed_sel, SPEED_10, SPEED_100, SPEED_1000, SPEED_2500,
    SPEED_5000, SPEED_10000, h10, h100, h1000, h2500, h5000, h10000]

/-- Speed 1 is refused with -EINVAL before any transfer. -/
theorem config_usxgmii_invalid_speed_witness :
    xpcs_config_usxgmii linux
      { pcs_bus := regfile_bus (fun _ => 0), pcs_addr := 0, pcs_supported := 0 }
      World.init 1 = (-22, World.init) :=
  config_usxgmii_invalid_speed linux
    { pcs_bus := regfile_bus (fun _ => 0), pcs_addr := 0, pcs_supported := 0 }
    World.init 1 (by decide) (by decide) (by decide) (by decide) (by decide) (by decide)

/-! ## Reset poll -/

theorem poll_world_succ (K : Hdr) (config : phylink_config) (dev : Nat) (w : World) (i : Nat) :
    poll_world K config dev w (i + 1) =
      poll_world K config dev (xpcs_read K config w dev K.MDIO_CTRL1).2 i := by
  simp [poll_world, Function.iterate_succ_apply]

theorem poll_read_succ (K : Hdr) (config : phylink_config) (dev : Nat) (w : World) (i : Nat) :
    poll_read K config dev w (i + 1) =
      poll_read K config dev (xpcs_read K config w dev K.MDIO_CTRL1).2 i := by
  simp [poll_read, poll_world_succ]

theorem poll_world_trace (K : Hdr) (config : phylink_config) (dev : Nat) (w : World) (i : Nat) :
    (poll_world K config dev w i).trace =
      w.trace ++ List.replicate i (Access.rd config.pcs_addr (reg_addr K dev K.MDIO_CTRL1)) := by
  induction i generalizing w with
  | zero => simp [poll_world]
  | succ i ih =>
    rw [poll_world_succ, ih]
    simp [xpcs_read, mdiobus_read, List.replicate_succ]

theorem poll_world_warnings (K : Hdr) (config : phylink_config) (dev : Nat) (w : World)
    (i : Nat) : (poll_world K config dev w i).warnings = w.warnings := by
  induction i generalizing w with
  | zero => rfl
  | succ i ih =>
    rw [poll_world_succ, ih]
    rfl

/-- The loop stops at read `k`: the first read that fails or has the reset bit
clear, or the last read allowed. -/
theorem poll_reset_loop_stop (K : Hdr) (config : phylink_config) (dev : Nat) :
    ∀ (n : Nat) (w : World) (k : Nat), k ≤ n →
      (∀ i, i < k → 0 ≤ poll_read K config dev w i ∧
        (poll_read K config dev w i).toNat &&& K.MDIO_CTRL1_RESET ≠ 0) →
      (k < n → poll_read K config dev w k < 0 ∨
        (poll_read K config dev w k).toNat &&& K.MDIO_CTRL1_RESET = 0) →
      xpcs_poll_reset_loop K config dev n w =
        (poll_read K config dev w k, poll_world K config dev w (k + 1)) := by
  intro n
  induction n with
  | zero =>
    intro w k hk _ _
    have hk0 : k = 0 := by omega
    subst hk0
    rfl
  | succ n ih =>
    intro w k hk hprev hstop
    unfold xpcs_poll_reset_loop
    cases k with
    | zero =>
      have h0 := hstop (by omega)
      have hr : poll_read K config dev w 0 = (xpcs_read K config w dev K.MDIO_CTRL1).1 := rfl
      rw [hr] at h0
      rcases h : xpcs_read K config w dev K.MDIO_CTRL1 with ⟨ret, w1⟩
      rw [h] at h0
      simp only [] at h0 ⊢
      have hw : poll_world K config dev w (0 + 1) = w1 := by
        rw [poll_world_succ, h]; rfl
      have hv : poll_read K config dev w 0 = ret := by rw [hr, h]
      rw [hw, hv]
      rcases h0 with h0 | h0
      · simp [h0]
      · simp [h0]
    | succ k =>
      have h0 := hprev 0 (by omega)
      have hr : poll_read K config dev w 0 = (xpcs_read K config w dev K.MDIO_CTRL1).1 := rfl
      rw [hr] at h0
      have hrec := ih (xpcs_read K config w dev K.MDIO_CTRL1).2 k (by omega)
        (fun i hi => by
          have := hprev (i + 1) (by omega)
          rwa [poll_read_succ] at this)
        (fun hlt => by
          have := hstop (by omega)
          rwa [poll_read_succ] at this)
      rw [← poll_read_succ, ← poll_world_succ] at hrec
      rcases h : xpcs_read K config w dev K.MDIO_CTRL1 with ⟨ret, w1⟩
      rw [h] at h0 hrec
      simp only [] at h0 hrec ⊢
      have hneg : ¬ ret < 0 := by omega
      simp only [hneg, if_false, h0.2, ne_eq, not_false_eq_true, if_true]
      exact hrec

/-- With the stopping read `k` known, `xpcs_poll_reset` returns what the loop
left in `ret`: the error, or -ETIMEDOUT when the reset bit is still set, or 0. -/
theorem poll_reset_stop (K : Hdr) (config : phylink_config) (w : World) (dev k : Nat)
    (hk : k ≤ 11)
    (hprev : ∀ i, i < k → 0 ≤ poll_read K config dev w i ∧
      (poll_read K config dev w i).toNat &&& K.MDIO_CTRL1_RESET ≠ 0)
    (hstop : k < 11 → poll_read K config dev w k < 0 ∨
      (poll_read K config dev w k).toNat &&& K.MDIO_CTRL1_RESET = 0) :
    xpcs_poll_reset K config w dev =
      (if poll_read K config dev w k < 0 then poll_read K config dev w k
       else if (poll_read K config dev w k).toNat &&& K.MDIO_CTRL1_RESET ≠ 0
         then -(K.ETIMEDOUT : Int) else 0,
       poll_world K config dev w (k + 1)) := by
  unfold xpcs_poll_reset
  simp only [Nat.add_one_sub_one, show (12 : Nat) - 1 = 11 from rfl]
  rw [poll_reset_loop_stop K config dev 11 w k hk hprev hstop]
  simp only []
  split_ifs <;> rfl

/-- C7: `xpcs_poll_reset` makes between 1 and 12 reads of CTRL1 and nothing
else.  A read that fails after reads that all had the reset bit set ends the
poll at once with its error.  The first read with the reset bit clear, if it is
among the first 12, ends the poll with 0 (read number 3 after exactly 3 reads);
12 reads with the bit set end it with -ETIMEDOUT.  When all 12 values are
successful reads, the result is 0 exactly when one of them has the bit clear
and -ETIMEDOUT exactly when all have it set. -/
theorem poll_reset_bounded (K : Hdr) (config : phylink_config) (w : World) (dev : Nat)
    (hE : 0 < K.ETIMEDOUT) :
    (∃ n, 1 ≤ n ∧ n ≤ 12 ∧
      (xpcs_poll_reset K config w dev).2.trace = w.trace ++
        List.replicate n (Access.rd config.pcs_addr (reg_addr K dev K.MDIO_CTRL1)) ∧
      (xpcs_poll_reset K config w dev).2.warnings = w.warnings) ∧
    (∀ k, k < 12 →
      (∀ i, i < k → 0 ≤ poll_read K config dev w i ∧
        (poll_read K config dev w i).toNat &&& K.MDIO_CTRL1_RESET ≠ 0) →
      poll_read K config dev w k < 0 →
      xpcs_poll_reset K config w dev =
        (poll_read K config dev w k, poll_world K config dev w (k + 1))) ∧
    (∀ k, k < 12 →
      (∀ i, i < k → 0 ≤ poll_read K config dev w i ∧
        (poll_read K config dev w i).toNat &&& K.MDIO_CTRL1_RESET ≠ 0) →
      0 ≤ poll_read K config dev w k →
      (poll_read K config dev w k).toNat &&& K.MDIO_CTRL1_RESET = 0 →
      xpcs_poll_reset K config w dev = (0, poll_world K config dev w (k + 1))) ∧
    ((∀ i, i < 12 → 0 ≤ poll_read K config dev w i ∧
        (poll_read K config dev w i).toNat &&& K.MDIO_CTRL1_RESET ≠ 0) →
      xpcs_poll_reset K config w dev =
        (-(K.ETIMEDOUT : Int), poll_world K config dev w 12)) ∧
    ((∀ i, i < 12 → 0 ≤ poll_read K config dev w i) →
      ((xpcs_poll_reset K config w dev).1 = 0 ↔
        ∃ i, i < 12 ∧ (poll_read K config dev w i).toNat &&& K.MDIO_CTRL1_RESET = 0) ∧
      ((xpcs_poll_reset K config w dev).1 = -(K.ETIMEDOUT : Int) ↔
        ∀ i, i < 12 → (poll_read K config dev w i).toNat &&& K.MDIO_CTRL1_RESET ≠ 0)) := by
  -- the three ways in which the poll ends
  have hfail : ∀ k, k < 12 →
      (∀ i, i < k → 0 ≤ poll_read K config dev w i ∧
        (poll_read K config dev w i).toNat &&& K.MDIO_CTRL1_RESET ≠ 0) →
      poll_read K config dev w k < 0 →
      xpcs_poll_reset K config w dev =
        (poll_read K config dev w k, poll_world K config dev w (k + 1)) := by
    intro k hk hprev hneg
    rw [poll_reset_stop K config w dev k (by omega) hprev (fun _ => Or.inl hneg)]
    simp [hneg]
  have hclear : ∀ k, k < 12 →
      (∀ i, i < k → 0 ≤ poll_read K config dev w i ∧
        (poll_read K config dev w i).toNat &&& K.MDIO_CTRL1_RESET ≠ 0) →
      0 ≤ poll_read K config dev w k →
      (poll_read K config dev w k).toNat &&& K.MDIO_CTRL1_RESET = 0 →
      xpcs_poll_reset K config w dev = (0, poll_world K config dev w (k + 1)) := by
    intro k hk hprev hpos hclr
    rw [poll_reset_stop K config w dev k (by omega) hprev (fun _ => Or.inr hclr)]
    have hneg : ¬ poll_read K config dev w k < 0 := by omega
    simp [hneg, hclr]
  have hall : (∀ i, i < 12 → 0 ≤ poll_read K config dev w i ∧
        (poll_read K config dev w i).toNat &&& K.MDIO_CTRL1_RESET ≠ 0) →
      xpcs_poll_reset K config w dev =
        (-(K.ETIMEDOUT : Int), poll_world K config dev w 12) := by
    intro h
    rw [poll_reset_stop K config w dev 11 (by omega) (fun i hi => h i (by omega))
      (fun hlt => absurd hlt (by omega))]
    have h11 := h 11 (by omega)
    have hneg : ¬ poll_read K config dev w 11 < 0 := by omega
    simp [hneg, h11.2]
  -- a first read that fails or has the bit clear exists, or all 12 have it set
  have hsplit : (∃ k, k < 12 ∧
      (∀ i, i < k → 0 ≤ poll_read K config dev w i ∧
        (poll_read K config dev w i).toNat &&& K.MDIO_CTRL1_RESET ≠ 0) ∧
      (poll_read K config dev w k < 0 ∨
        (poll_read K config dev w k).toNat &&& K.MDIO_CTRL1_RESET = 0)) ∨
      (∀ i, i < 12 → 0 ≤ poll_read K config dev w i ∧
        (poll_read K config dev w i).toNat &&& K.MDIO_CTRL1_RESET ≠ 0) := by
    by_cases hex : ∃ k, k < 12 ∧ (poll_read K config dev w k < 0 ∨
        (poll_read K config dev w k).toNat &&& K.MDIO_CTRL1_RESET = 0)
    · left
      refine ⟨Nat.find hex, (Nat.find_spec hex).1, ?_, (Nat.find_spec hex).2⟩
      intro i hi
      have hmin := Nat.find_min hex hi
      have hlt : i < 12 := lt_trans hi (Nat.find_spec hex).1
      constructor
      · by_contra hc
        exact hmin ⟨hlt, Or.inl (by omega)⟩
      · intro hc
        exact hmin ⟨hlt, Or.inr hc⟩
    · right
      intro i hi
      constructor
      · by_contra hc
        exact hex ⟨i, hi, Or.inl (by omega)⟩
      · intro hc
        exact hex ⟨i, hi, Or.inr hc⟩
  refine ⟨?_, hfail, hclear, hall, ?_⟩
  · rcases hsplit with ⟨k, hk, hprev, hstop⟩ | h
    · refine ⟨k + 1, by omega, by omega, ?_⟩
      rw [poll_reset_stop K config w dev k (by omega) hprev (fun _ => hstop)]
      exact ⟨poll_world_trace K config dev w (k + 1), poll_world_warnings K config dev w (k + 1)⟩
    · refine ⟨12, by omega, by omega, ?_⟩
      rw [hall h]
      exact ⟨poll_world_trace K config dev w 12, poll_world_warnings K config dev w 12⟩
  · intro hsucc
    rcases hsplit with ⟨k, hk, hprev, hstop⟩ | h
    · have hclr : (poll_read K config dev w k).toNat &&& K.MDIO_CTRL1_RESET = 0 := by
        rcases hstop with hneg | hclr
        · exact absurd (hsucc k hk) (by omega)
        · exact hclr
      rw [hclear k hk hprev (hsucc k hk) hclr]
      constructor
      · constructor
        · intro _; exact ⟨k, hk, hclr⟩
        · intro _; rfl
      · constructor
        · intro h0
          simp only at h0
          omega
        · intro hset
          exact absurd hclr (hset k hk)
    · rw [hall h]
      constructor
      · constructor
        · intro h0
          simp only at h0
          omega
        · rintro ⟨i, hi, hclr⟩
          exact absurd hclr (h i hi).2
      · constructor
        · intro _ i hi; exact (h i hi).2
        · intro _; rfl

/-- A reset bit that is set on the first two reads and clear on the third: the
poll succeeds after exactly three reads of CTRL1. -/
theorem poll_reset_bounded_witness :
    0 < linux.ETIMEDOUT ∧
    xpcs_poll_reset linux
      { pcs_bus := script_bus [0x8000, 0x8000, 0], pcs_addr := 0, pcs_supported := 0 }
      World.init 3 =
      (0, { trace := [Access.rd 0 0x40030000, Access.rd 0 0x40030000, Access.rd 0 0x40030000],
            warnings := [] }) :=
  ⟨by decide,
   (poll_reset_bounded linux
      { pcs_bus := script_bus [0x8000, 0x8000, 0], pcs_addr := 0, pcs_supported := 0 }
      World.init 3 (by decide)).2.2.1 2 (by decide) (by decide) (by decide) (by decide)⟩

/-! ## Probe -/

theorem assemble_id (hi lo : Nat) (hhi16 : hi < 65536) (hlo16 : lo < 65536) :
    u32 (u32 (hi <<< 16) ||| lo) = hi * 65536 + lo := by
  have hlo : lo < 2 ^ 16 := by omega
  have h1 : hi <<< 16 = 2 ^ 16 * hi := by rw [Nat.shiftLeft_eq, Nat.mul_comm]
  have h2 : 2 ^ 16 * hi < 2 ^ 32 := by omega
  unfold u32
  rw [h1, Nat.mod_eq_of_lt h2, ← Nat.mul_add_lt_is_or hlo hi]
  rw [Nat.mod_eq_of_lt (by omega)]
  omega

/-- Two successful 16-bit reads give the identifier with PHYSID1 as the high
half and PHYSID2 as the low half. -/
theorem get_id_value (K : Hdr) (config : phylink_config) (w : World) (hi lo : Nat)
    (hhi : (xpcs_read K config w K.MDIO_MMD_PCS K.MII_PHYSID1).1 = (hi : Int))
    (hlo : (xpcs_read K config (xpcs_read K config w K.MDIO_MMD_PCS K.MII_PHYSID1).2
      K.MDIO_MMD_PCS K.MII_PHYSID2).1 = (lo : Int))
    (hhi16 : hi < 65536) (hlo16 : lo < 65536) :
    (xpcs_get_id K config w).1 = hi * 65536 + lo := by
  unfold xpcs_get_id
  rcases h1 : xpcs_read K config w K.MDIO_MMD_PCS K.MII_PHYSID1 with ⟨r1, w1⟩
  rw [h1] at hhi hlo
  simp only [] at hhi hlo ⊢
  rcases h2 : xpcs_read K config w1 K.MDIO_MMD_PCS K.MII_PHYSID2 with ⟨r2, w2⟩
  rw [h2] at hlo
  simp only [] at hlo ⊢
  subst hhi hlo
  have n1 : ¬ ((hi : Int) < 0) := by omega
  have n2 : ¬ ((lo : Int) < 0) := by omega
  rw [if_neg n1, if_neg n2]
  simp only [Int.toNat_ofNat]
  exact assemble_id hi lo hhi16 hlo16

/-- The scan of `xpcs_usxgmii_interfaces` ends on the terminating entry exactly
when the interface is not USXGMII. -/
theorem scan_interface_usxgmii (K : Hdr) (interface : Nat)
    (hif : K.PHY_INTERFACE_MODE_USXGMII ≠ K.PHY_INTERFACE_MODE_MAX) :
    (xpcs_scan_interface K interface (xpcs_usxgmii_interfaces K) =
      some K.PHY_INTERFACE_MODE_MAX) ↔ interface ≠ K.PHY_INTERFACE_MODE_USXGMII := by
  simp only [xpcs_usxgmii_interfaces, xpcs_scan_interface, hif, if_false, if_true]
  by_cases h : K.PHY_INTERFACE_MODE_USXGMII = interface
  · subst h
    simp [hif]
  · simp [h, Ne.symm h]

/-- C8: with the identifier assembled from two successful 16-bit reads
(PHYSID1 the high half, PHYSID2 the low half), `xpcs_hw_probe` returns -ENODEV
unless the identifier is 0x7996ced0, then -EINVAL unless the interface is
USXGMII, and 0 otherwise; so it returns 0 exactly for that identifier with
that interface. -/
theorem hw_probe_matching (K : Hdr) (config : phylink_config) (w : World)
    (interface : Nat) (supported : linkmode) (hi lo : Nat)
    (hhi : (xpcs_read K config w K.MDIO_MMD_PCS K.MII_PHYSID1).1 = (hi : Int))
    (hlo : (xpcs_read K config (xpcs_read K config w K.MDIO_MMD_PCS K.MII_PHYSID1).2
      K.MDIO_MMD_PCS K.MII_PHYSID2).1 = (lo : Int))
    (hhi16 : hi < 65536) (hlo16 : lo < 65536)
    (hif : K.PHY_INTERFACE_MODE_USXGMII ≠ K.PHY_INTERFACE_MODE_MAX)
    (hnodev : 0 < K.ENODEV) (hinval : 0 < K.EINVAL) :
    ((xpcs_hw_probe K config w interface supported).1 =
      if hi * 65536 + lo = 0x7996ced0 then
        if interface = K.PHY_INTERFACE_MODE_USXGMII then 0 else -(K.EINVAL : Int)
      else -(K.ENODEV : Int)) ∧
    ((xpcs_hw_probe K config w interface supported).1 = 0 ↔
      hi * 65536 + lo = 0x7996ced0 ∧ interface = K.PHY_INTERFACE_MODE_USXGMII) := by
  have hid := get_id_value K config w hi lo hhi hlo hhi16 hlo16
  have hrange : hi * 65536 + lo < 2 ^ 32 := by omega
  have key : (xpcs_hw_probe K config w interface supported).1 =
      if hi * 65536 + lo = 0x7996ced0 then
        if interface = K.PHY_INTERFACE_MODE_USXGMII then 0 else -(K.EINVAL : Int)
      else -(K.ENODEV : Int) := by
    unfold xpcs_hw_probe
    rcases h : xpcs_get_id K config w with ⟨id, w1⟩
    rw [h] at hid
    simp only [] at hid ⊢
    subst hid
    have hmask : (hi * 65536 + lo) &&& SYNOPSYS_XPCS_USXGMII_MASK = hi * 65536 + lo := by
      have : SYNOPSYS_XPCS_USXGMII_MASK = 2 ^ 32 - 1 := by decide
      rw [this, Nat.and_pow_two_sub_one_eq_mod, Nat.mod_eq_of_lt hrange]
    have hID : SYNOPSYS_XPCS_USXGMII_ID = 0x7996ced0 := rfl
    simp only [xpcs_id_list, xpcs_find_match, hmask, hID]
    by_cases hm : hi * 65536 + lo = 0x7996ced0
    · rw [if_pos hm, if_pos hm]
      simp only []
      by_cases hu : interface = K.PHY_INTERFACE_MODE_USXGMII
      · have hs := (scan_interface_usxgmii K interface hif).not.mpr (by simpa using hu)
        rw [if_neg hs, if_pos hu]
      · have hs := (scan_interface_usxgmii K interface hif).mpr hu
        rw [if_pos hs, if_neg hu]
    · rw [if_neg hm, if_neg hm]
  refine ⟨key, ?_⟩
  rw [key]
  split_ifs with h1 h2
  · simp [h1, h2]
  · constructor
    · intro h; omega
    · intro h; exact absurd h.2 h2
  · constructor
    · intro h; omega
    · intro h; exact absurd h.1 h1

/-- The identifier 0x7996ced1 is refused with -ENODEV on every interface; the
reads return 0x7996 and 0xced1. -/
theorem hw_probe_matching_witness :
    ((xpcs_hw_probe linux
        { pcs_bus := script_bus [0x7996, 0xced1], pcs_addr := 0, pcs_supported := 0 }
        World.init linux.PHY_INTERFACE_MODE_USXGMII 0).1 = -19) ∧
    ((xpcs_hw_probe linux
        { pcs_bus := script_bus [0x7996, 0xced1], pcs_addr := 0, pcs_supported := 0 }
        World.init linux.PHY_INTERFACE_MODE_USXGMII 0).1 = 0 ↔
      0x7996 * 65536 + 0xced1 = 0x7996ced0 ∧
        linux.PHY_INTERFACE_MODE_USXGMII = linux.PHY_INTERFACE_MODE_USXGMII) :=
  hw_probe_matching linux
    { pcs_bus := script_bus [0x7996, 0xced1], pcs_addr := 0, pcs_supported := 0 }
    World.init linux.PHY_INTERFACE_MODE_USXGMII 0 0x7996 0xced1 (by decide) (by decide)
    (by decide) (by decide) (by decide) (by decide) (by decide)

/-! ## Advertisement words -/

/-- The three writes of `xpcs_config_aneg_c73`, with the words in the form of
the layout. -/
theorem config_aneg_c73_eq (K : Hdr) (config : phylink_config) (w : World) :
    xpcs_config_aneg_c73 K config w =
      if (xpcs_write K config w K.MDIO_MMD_AN DW_SR_AN_ADV3
          (layout_ADV3 K config.pcs_supported)).1 < 0 then
        xpcs_write K config w K.MDIO_MMD_AN DW_SR_AN_ADV3 (layout_ADV3 K config.pcs_supported)
      else if (xpcs_write K config
          (xpcs_write K config w K.MDIO_MMD_AN DW_SR_AN_ADV3
            (layout_ADV3 K config.pcs_supported)).2
          K.MDIO_MMD_AN DW_SR_AN_ADV2 (layout_ADV2 K config.pcs_supported)).1 < 0 then
        xpcs_write K config
          (xpcs_write K config w K.MDIO_MMD_AN DW_SR_AN_ADV3
            (layout_ADV3 K config.pcs_supported)).2
          K.MDIO_MMD_AN DW_SR_AN_ADV2 (layout_ADV2 K config.pcs_supported)
      else
        xpcs_write K config
          (xpcs_write K config
            (xpcs_write K config w K.MDIO_MMD_AN DW_SR_AN_ADV3
              (layout_ADV3 K config.pcs_supported)).2
            K.MDIO_MMD_AN DW_SR_AN_ADV2 (layout_ADV2 K config.pcs_supported)).2
          K.MDIO_MMD_AN DW_SR_AN_ADV1 (layout_ADV1 K config.pcs_supported) := by
  unfold xpcs_config_aneg_c73 layout_ADV3 layout_ADV2 layout_ADV1
  cases test_bit K.ETHTOOL_LINK_MODE_2500baseX_Full_BIT config.pcs_supported <;>
  cases test_bit K.ETHTOOL_LINK_MODE_1000baseKX_Full_BIT config.pcs_supported <;>
  cases test_bit K.ETHTOOL_LINK_MODE_10000baseKX4_Full_BIT config.pcs_supported <;>
  cases test_bit K.ETHTOOL_LINK_MODE_10000baseKR_Full_BIT config.pcs_supported <;>
  cases test_bit K.ETHTOOL_LINK_MODE_Pause_BIT config.pcs_supported <;>
  cases test_bit K.ETHTOOL_LINK_MODE_Asym_Pause_BIT config.pcs_supported <;>
  rfl

theorem u16_layout_ADV3 (K : Hdr) (D : linkmode) : u16 (layout_ADV3 K D) = layout_ADV3 K D := by
  unfold layout_ADV3
  cases test_bit K.ETHTOOL_LINK_MODE_2500baseX_Full_BIT D <;> rfl

theorem u16_layout_ADV2 (K : Hdr) (D : linkmode) : u16 (layout_ADV2 K D) = layout_ADV2 K D := by
  unfold layout_ADV2
  cases test_bit K.ETHTOOL_LINK_MODE_1000baseKX_Full_BIT D <;>
  cases test_bit K.ETHTOOL_LINK_MODE_10000baseKX4_Full_BIT D <;>
  cases test_bit K.ETHTOOL_LINK_MODE_10000baseKR_Full_BIT D <;> rfl

theorem u16_layout_ADV1 (K : Hdr) (D : linkmode) : u16 (layout_ADV1 K D) = layout_ADV1 K D := by
  unfold layout_ADV1
  cases test_bit K.ETHTOOL_LINK_MODE_Pause_BIT D <;>
  cases test_bit K.ETHTOOL_LINK_MODE_Asym_Pause_BIT D <;> rfl

/-- C2: when the writes of ADV3 and ADV2 succeed, `xpcs_config_aneg_c73` makes
exactly three transfers: the writes of ADV3, ADV2 and ADV1, in this order, with
the words of the fixed layout, which depend on `config.pcs_supported` only; its
result is the result of the last write. -/
theorem config_aneg_c73_layout (K : Hdr) (config : phylink_config) (w : World)
    (h3 : 0 ≤ (xpcs_write K config w K.MDIO_MMD_AN DW_SR_AN_ADV3
      (layout_ADV3 K config.pcs_supported)).1)
    (h2 : 0 ≤ (xpcs_write K config
      (xpcs_write K config w K.MDIO_MMD_AN DW_SR_AN_ADV3
        (layout_ADV3 K config.pcs_supported)).2
      K.MDIO_MMD_AN DW_SR_AN_ADV2 (layout_ADV2 K config.pcs_supported)).1) :
    (xpcs_config_aneg_c73 K config w).2.trace = w.trace ++
      [Access.wr config.pcs_addr (reg_addr K K.MDIO_MMD_AN DW_SR_AN_ADV3)
         (layout_ADV3 K config.pcs_supported),
       Access.wr config.pcs_addr (reg_addr K K.MDIO_MMD_AN DW_SR_AN_ADV2)
         (layout_ADV2 K config.pcs_supported),
       Access.wr config.pcs_addr (reg_addr K K.MDIO_MMD_AN DW_SR_AN_ADV1)
         (layout_ADV1 K config.pcs_supported)] ∧
    (xpcs_config_aneg_c73 K config w).2.warnings = w.warnings ∧
    (xpcs_config_aneg_c73 K config w).1 =
      config.pcs_bus.xfer
        (w.trace ++
          [Access.wr config.pcs_addr (reg_addr K K.MDIO_MMD_AN DW_SR_AN_ADV3)
             (layout_ADV3 K config.pcs_supported),
           Access.wr config.pcs_addr (reg_addr K K.MDIO_MMD_AN DW_SR_AN_ADV2)
             (layout_ADV2 K config.pcs_supported)])
        (Access.wr config.pcs_addr (reg_addr K K.MDIO_MMD_AN DW_SR_AN_ADV1)
          (layout_ADV1 K config.pcs_supported)) := by
  rw [config_aneg_c73_eq, if_neg (by omega), if_neg (by omega)]
  simp [xpcs_write, mdiobus_write, u16_layout_ADV3, u16_layout_ADV2, u16_layout_ADV1]

/-- A device that supports 2500baseX_Full, 1000baseKX_Full, 10000baseKR_Full
and Pause (bits 15, 17, 19 and 13): the words are 0x1, 0xa0 and 0x401. -/
theorem config_aneg_c73_layout_witness :
    (xpcs_config_aneg_c73 linux
      { pcs_bus := regfile_bus (fun _ => 0), pcs_addr := 0, pcs_supported := 0xaa000 }
      World.init).2.trace = [] ++
      [Access.wr 0 0x40070012 0x1, Access.wr 0 0x40070011 0xa0, Access.wr 0 0x40070010 0x401] ∧
    (xpcs_config_aneg_c73 linux
      { pcs_bus := regfile_bus (fun _ => 0), pcs_addr := 0, pcs_supported := 0xaa000 }
      World.init).2.warnings = [] ∧
    (xpcs_config_aneg_c73 linux
      { pcs_bus := regfile_bus (fun _ => 0), pcs_addr := 0, pcs_supported := 0xaa000 }
      World.init).1 = 0 :=
  config_aneg_c73_layout linux
    { pcs_bus := regfile_bus (fun _ => 0), pcs_addr := 0, pcs_supported := 0xaa000 }
    World.init (by decide) (by decide)

/-! ## Decoding of the partner words -/

theorem decode_ADV3 (K : Hdr) (D : linkmode) :
    (layout_ADV3 K D &&& DW_C73_2500KX ≠ 0) ↔
      test_bit K.ETHTOOL_LINK_MODE_2500baseX_Full_BIT D = true := by
  unfold layout_ADV3
  cases test_bit K.ETHTOOL_LINK_MODE_2500baseX_Full_BIT D <;> decide

theorem decode_ADV2 (K : Hdr) (D : linkmode) :
    ((layout_ADV2 K D &&& DW_C73_1000KX ≠ 0) ↔
      test_bit K.ETHTOOL_LINK_MODE_1000baseKX_Full_BIT D = true) ∧
    ((layout_ADV2 K D &&& DW_C73_10000KX4 ≠ 0) ↔
      test_bit K.ETHTOOL_LINK_MODE_10000baseKX4_Full_BIT D = true) ∧
    ((layout_ADV2 K D &&& DW_C73_10000KR ≠ 0) ↔
      test_bit K.ETHTOOL_LINK_MODE_10000baseKR_Full_BIT D = true) := by
  unfold layout_ADV2
  cases test_bit K.ETHTOOL_LINK_MODE_1000baseKX_Full_BIT D <;>
  cases test_bit K.ETHTOOL_LINK_MODE_10000baseKX4_Full_BIT D <;>
  cases test_bit K.ETHTOOL_LINK_MODE_10000baseKR_Full_BIT D <;> decide

theorem decode_ADV1 (K : Hdr) (D : linkmode) :
    ((layout_ADV1 K D &&& DW_C73_PAUSE ≠ 0) ↔
      test_bit K.ETHTOOL_LINK_MODE_Pause_BIT D = true) ∧
    ((layout_ADV1 K D &&& DW_C73_ASYM_PAUSE ≠ 0) ↔
      test_bit K.ETHTOOL_LINK_MODE_Asym_Pause_BIT D = true) := by
  unfold layout_ADV1
  cases test_bit K.ETHTOOL_LINK_MODE_Pause_BIT D <;>
  cases test_bit K.ETHTOOL_LINK_MODE_Asym_Pause_BIT D <;> decide

/-- A conditional `phylink_set`, bit by bit. -/
theorem test_bit_cond_set (c : Prop) [Decidable c] (nr i : Nat) (lp : linkmode) :
    test_bit i (if c then set_bit nr lp else lp) =
      (test_bit i lp || (decide c && decide (nr = i))) := by
  by_cases hc : c
  · simp [hc, test_bit_set_bit]
  · simp [hc]

theorem test_bit_six_modes (K : Hdr) (i : Nat) :
    test_bit i (six_modes K) =
      (decide (K.ETHTOOL_LINK_MODE_Asym_Pause_BIT = i) ||
       decide (K.ETHTOOL_LINK_MODE_Pause_BIT = i) ||
       decide (K.ETHTOOL_LINK_MODE_10000baseKR_Full_BIT = i) ||
       decide (K.ETHTOOL_LINK_MODE_10000baseKX4_Full_BIT = i) ||
       decide (K.ETHTOOL_LINK_MODE_2500baseX_Full_BIT = i) ||
       decide (K.ETHTOOL_LINK_MODE_1000baseKX_Full_BIT = i)) := by
  simp only [six_modes, test_bit_set_bit, test_bit_zero, Bool.false_or]

/-- What `xpcs_read_lpa` leaves in `lp_advertising`, bit by bit, when the
partner is able and the four reads succeed with the values `v3`, `v2`, `v1`. -/
theorem read_lpa_decoded (K : Hdr) (config : phylink_config) (w w0 w3 w2 w1 : World)
    (st : phylink_link_state) (r0 : Int) (v3 v2 v1 : Nat)
    (e0 : xpcs_read K config w K.MDIO_MMD_AN K.MDIO_STAT1 = (r0, w0))
    (hst : 0 ≤ r0) (hable : r0.toNat &&& K.MDIO_AN_STAT1_LPABLE ≠ 0)
    (e3 : xpcs_read K config w0 K.MDIO_MMD_AN DW_SR_AN_LP_ABL3 = ((v3 : Int), w3))
    (e2 : xpcs_read K config w3 K.MDIO_MMD_AN DW_SR_AN_LP_ABL2 = ((v2 : Int), w2))
    (e1 : xpcs_read K config w2 K.MDIO_MMD_AN DW_SR_AN_LP_ABL1 = ((v1 : Int), w1)) :
    (xpcs_read_lpa K config w st).1 = 0 ∧
    (xpcs_read_lpa K config w st).2.1 = w1 ∧
    ∀ i, test_bit i (xpcs_read_lpa K config w st).2.2.lp_advertising =
      ((test_bit i st.lp_advertising ||
        decide (K.ETHTOOL_LINK_MODE_Autoneg_BIT = i) ||
        (decide (v3 &&& DW_C73_2500KX ≠ 0) &&
          decide (K.ETHTOOL_LINK_MODE_2500baseX_Full_BIT = i)) ||
        (decide (v2 &&& DW_C73_1000KX ≠ 0) &&
          decide (K.ETHTOOL_LINK_MODE_1000baseKX_Full_BIT = i)) ||
        (decide (v2 &&& DW_C73_10000KX4 ≠ 0) &&
          decide (K.ETHTOOL_LINK_MODE_10000baseKX4_Full_BIT = i)) ||
        (decide (v2 &&& DW_C73_10000KR ≠ 0) &&
          decide (K.ETHTOOL_LINK_MODE_10000baseKR_Full_BIT = i)) ||
        (decide (v1 &&& DW_C73_PAUSE ≠ 0) &&
          decide (K.ETHTOOL_LINK_MODE_Pause_BIT = i)) ||
        (decide (v1 &&& DW_C73_ASYM_PAUSE ≠ 0) &&
          decide (K.ETHTOOL_LINK_MODE_Asym_Pause_BIT = i))) &&
       test_bit i st.advertising) := by
  have n0 : ¬ r0 < 0 := by omega
  have n3 : ¬ ((v3 : Int) < 0) := by omega
  have n2 : ¬ ((v2 : Int) < 0) := by omega
  have n1 : ¬ ((v1 : Int) < 0) := by omega
  unfold xpcs_read_lpa
  rw [e0]
  simp only []
  rw [if_neg n0, if_neg hable, e3]
  simp only []
  rw [if_neg n3, e2]
  simp only []
  rw [if_neg n2, e1]
  simp only []
  rw [if_neg n1]
  refine ⟨rfl, rfl, ?_⟩
  intro i
  simp only [Int.toNat_ofNat, test_bit_linkmode_and, test_bit_cond_set, test_bit_set_bit]

/-- Three writes in the trace of `xpcs_config_aneg_c73` carry the layout words. -/
theorem c73_trace_words (K : Hdr) (config : phylink_config) (w : World) (a3 a2 a1 : Access)
    (henc : (xpcs_config_aneg_c73 K config w).2.trace = w.trace ++ [a3, a2, a1]) :
    a3 = Access.wr config.pcs_addr (reg_addr K K.MDIO_MMD_AN DW_SR_AN_ADV3)
      (layout_ADV3 K config.pcs_supported) ∧
    a2 = Access.wr config.pcs_addr (reg_addr K K.MDIO_MMD_AN DW_SR_AN_ADV2)
      (layout_ADV2 K config.pcs_supported) ∧
    a1 = Access.wr config.pcs_addr (reg_addr K K.MDIO_MMD_AN DW_SR_AN_ADV1)
      (layout_ADV1 K config.pcs_supported) := by
  rw [config_aneg_c73_eq] at henc
  split_ifs at henc <;>
    simp [xpcs_write, mdiobus_write, u16_layout_ADV3, u16_layout_ADV2, u16_layout_ADV1] at henc
  exact ⟨henc.1.symm, henc.2.1.symm, henc.2.2.symm⟩

/-- The propositional core of the round trip: a mode of the six is decoded
exactly when it was encoded. -/
theorem six_modes_core (s : Nat → Prop) (a : Prop) (An Ap P KR KX4 X KX i : Nat)
    (hA : ((((¬ Ap = An ∧ ¬ P = An) ∧ ¬ KR = An) ∧ ¬ KX4 = An) ∧ ¬ X = An) ∧ ¬ KX = An)
    (hS : s i → (((((Ap = i ∨ P = i) ∨ KR = i) ∨ KX4 = i) ∨ X = i) ∨ KX = i))
    (ha : s i → a) :
    (((((((An = i ∨ s X ∧ X = i) ∨ s KX ∧ KX = i) ∨ s KX4 ∧ KX4 = i) ∨ s KR ∧ KR = i) ∨
        s P ∧ P = i) ∨ s Ap ∧ Ap = i) ∧ a) ∧
      ((((((Ap = i ∨ P = i) ∨ KR = i) ∨ KX4 = i) ∨ X = i) ∨ KX = i)) ↔ s i := by
  obtain ⟨⟨⟨⟨⟨n1, n2⟩, n3⟩, n4⟩, n5⟩, n6⟩ := hA
  constructor
  · rintro ⟨⟨((((((h | ⟨hs, h⟩) | ⟨hs, h⟩) | ⟨hs, h⟩) | ⟨hs, h⟩) | ⟨hs, h⟩) | ⟨hs, h⟩), -⟩, hm⟩
    · subst h
      rcases hm with ((((h | h) | h) | h) | h) | h
      · exact absurd h n1
      · exact absurd h n2
      · exact absurd h n3
      · exact absurd h n4
      · exact absurd h n5
      · exact absurd h n6
    all_goals (subst h; exact hs)
  · intro hs
    have hm := hS hs
    refine ⟨⟨?_, ha hs⟩, hm⟩
    rcases hm with ((((h | h) | h) | h) | h) | h
    · subst h; exact Or.inr ⟨hs, rfl⟩
    · subst h; exact Or.inl (Or.inr ⟨hs, rfl⟩)
    · subst h; exact Or.inl (Or.inl (Or.inr ⟨hs, rfl⟩))
    · subst h; exact Or.inl (Or.inl (Or.inl (Or.inr ⟨hs, rfl⟩)))
    · subst h; exact Or.inl (Or.inl (Or.inl (Or.inl (Or.inl (Or.inr ⟨hs, rfl⟩)))))
    · subst h; exact Or.inl (Or.inl (Or.inl (Or.inl (Or.inr ⟨hs, rfl⟩))))

/-- C1: let the trace of `xpcs_config_aneg_c73`, run with `config.pcs_supported`
= S a subset of the six modes, end with the three writes of the words `v3`,
`v2`, `v1` to ADV3, ADV2, ADV1.  If `xpcs_read_lpa` then reads AN STAT1 with the
link-partner-able bit set and reads `v3`, `v2`, `v1` from LP_ABL3, LP_ABL2,
LP_ABL1, with `lp_advertising` empty on entry and `advertising` a superset of
S, it returns 0 and `lp_advertising` restricted to the six modes is S. -/
theorem c73_round_trip (K : Hdr) (config : phylink_config) (w w' w0 w3 w2 w1 : World)
    (st : phylink_link_state) (r0 : Int) (v3 v2 v1 : Nat)
    (hS : linkmode_and config.pcs_supported (six_modes K) = config.pcs_supported)
    (hA : test_bit K.ETHTOOL_LINK_MODE_Autoneg_BIT (six_modes K) = false)
    (henc : (xpcs_config_aneg_c73 K config w).2.trace = w.trace ++
      [Access.wr config.pcs_addr (reg_addr K K.MDIO_MMD_AN DW_SR_AN_ADV3) v3,
       Access.wr config.pcs_addr (reg_addr K K.MDIO_MMD_AN DW_SR_AN_ADV2) v2,
       Access.wr config.pcs_addr (reg_addr K K.MDIO_MMD_AN DW_SR_AN_ADV1) v1])
    (e0 : xpcs_read K config w' K.MDIO_MMD_AN K.MDIO_STAT1 = (r0, w0))
    (hst : 0 ≤ r0) (hable : r0.toNat &&& K.MDIO_AN_STAT1_LPABLE ≠ 0)
    (e3 : xpcs_read K config w0 K.MDIO_MMD_AN DW_SR_AN_LP_ABL3 = ((v3 : Int), w3))
    (e2 : xpcs_read K config w3 K.MDIO_MMD_AN DW_SR_AN_LP_ABL2 = ((v2 : Int), w2))
    (e1 : xpcs_read K config w2 K.MDIO_MMD_AN DW_SR_AN_LP_ABL1 = ((v1 : Int), w1))
    (hlp : st.lp_advertising = 0)
    (hadv : linkmode_and config.pcs_supported st.advertising = config.pcs_supported) :
    (xpcs_read_lpa K config w' st).1 = 0 ∧
    linkmode_and (xpcs_read_lpa K config w' st).2.2.lp_advertising (six_modes K) =
      config.pcs_supported := by
  obtain ⟨hv3, hv2, hv1⟩ := c73_trace_words K config w _ _ _ henc
  simp only [Access.wr.injEq, true_and] at hv3 hv2 hv1
  subst hv3 hv2 hv1
  obtain ⟨hret, -, hbits⟩ := read_lpa_decoded K config w' w0 w3 w2 w1 st r0 _ _ _
    e0 hst hable e3 e2 e1
  refine ⟨hret, ?_⟩
  apply Nat.eq_of_testBit_eq
  intro i
  have hSi := congrArg (test_bit i) hS
  have hAi := congrArg (test_bit i) hadv
  have key : test_bit i (linkmode_and (xpcs_read_lpa K config w' st).2.2.lp_advertising
      (six_modes K)) = test_bit i config.pcs_supported := by
    rw [test_bit_linkmode_and] at hSi hAi ⊢
    rw [hbits, hlp, test_bit_zero]
    rw [test_bit_six_modes] at hSi hA ⊢
    have d3 := decode_ADV3 K config.pcs_supported
    obtain ⟨dkx, dkx4, dkr⟩ := decode_ADV2 K config.pcs_supported
    obtain ⟨dp, dap⟩ := decode_ADV1 K config.pcs_supported
    simp only [d3, dkx, dkx4, dkr, dp, dap, Bool.decide_eq_true]
    rw [Bool.eq_iff_iff]
    simp only [Bool.and_eq_true, Bool.or_eq_true, decide_eq_true_eq, Bool.false_or,
      Bool.or_eq_false_iff, decide_eq_false_iff_not] at hSi hAi hA ⊢
    rw [Bool.eq_iff_iff] at hSi hAi
    simp only [Bool.and_eq_true, Bool.or_eq_true, decide_eq_true_eq] at hSi hAi
    exact six_modes_core (fun n => test_bit n config.pcs_supported = true)
      (test_bit i st.advertising = true) _ _ _ _ _ _ _ i hA (fun h => (hSi.mpr h).2)
      (fun h => (hAi.mpr h).2)
  exact key

/-- The words 0x1, 0xa0, 0x401 written for {2500baseX, 1000baseKX, 10000baseKR,
Pause} and read back from the partner registers give these four modes again;
the local advertisement also has Autoneg (bit 6). -/
theorem c73_round_trip_witness :
    (xpcs_read_lpa linux partner_config (xpcs_config_aneg_c73 linux partner_config World.init).2
      (state_of 0xaa040 0)).1 = 0 ∧
    linkmode_and
      (xpcs_read_lpa linux partner_config
        (xpcs_config_aneg_c73 linux partner_config World.init).2
        (state_of 0xaa040 0)).2.2.lp_advertising
      (six_modes linux) = 0xaa000 :=
  c73_round_trip linux partner_config World.init
    (xpcs_config_aneg_c73 linux partner_config World.init).2 _ _ _ _
    (state_of 0xaa040 0) 0x1 0x1 0xa0 0x401
    (by decide) (by decide) (by decide) rfl (by decide) (by decide) rfl rfl rfl rfl (by decide)

/-! ## Speed programming pattern -/

theorem testBit_u16_high (b i : Nat) (hb : b < 65536) (hi : ¬ i < 16) :
    b.testBit i = false := by
  apply Nat.testBit_lt_two_pow
  calc b < 2 ^ 16 := by omega
    _ ≤ 2 ^ i := Nat.pow_le_pow_right (by omega) (by omega)

/-- The word `xpcs_config_usxgmii` writes to VEND2 CTRL1, bit by bit. -/
theorem vend2_word_bits (b code i : Nat) (hb : b < 65536)
    (hc : ∀ j, code.testBit j = true → j = 13 ∨ j = 6 ∨ j = 5) :
    (u16 ((b &&& not32 DW_USXGMII_SS_MASK) ||| (code ||| DW_USXGMII_FULL))).testBit i =
      if i = 13 ∨ i = 6 ∨ i = 5 then code.testBit i
      else if i = 8 then true else b.testBit i := by
  simp only [u16, not32, DW_USXGMII_SS_MASK, DW_USXGMII_FULL, BIT, Nat.one_shiftLeft,
    Nat.testBit_mod_two_pow, Nat.testBit_or, Nat.testBit_and, Nat.testBit_xor,
    Nat.testBit_two_pow_sub_one, Nat.testBit_two_pow]
  have hcf : ¬ (i = 13 ∨ i = 6 ∨ i = 5) → code.testBit i = false := by
    intro hn
    by_contra hcon
    exact hn (hc i (by simpa using hcon))
  by_cases h16 : i < 16
  · have h32 : i < 32 := by omega
    by_cases h13 : i = 13
    · subst h13; simp
    by_cases h6 : i = 6
    · subst h6; simp
    by_cases h5 : i = 5
    · subst h5; simp
    by_cases h8 : i = 8
    · subst h8; simp
    have := hcf (by omega)
    simp [h16, h32, h13, h6, h5, h8, this, Ne.symm h13, Ne.symm h6, Ne.symm h5, Ne.symm h8]
  · have hbf := testBit_u16_high b i hb h16
    have := hcf (by omega)
    have h13 : ¬ i = 13 := by omega
    have h6 : ¬ i = 6 := by omega
    have h5 : ¬ i = 5 := by omega
    have h8 : ¬ i = 8 := by omega
    simp [h16, h13, h6, h5, h8, this, hbf]

/-- The word (old & ~(bit13|bit6|bit5)) | code | bit 8 on 16 bits, bit by bit. -/
theorem pattern_word_bits (b code i : Nat) (hb : b < 65536)
    (hc : ∀ j, code.testBit j = true → j = 13 ∨ j = 6 ∨ j = 5) :
    ((b &&& ((2 ^ 16 - 1) ^^^ (BIT 13 ||| BIT 6 ||| BIT 5))) ||| code ||| BIT 8).testBit i =
      if i = 13 ∨ i = 6 ∨ i = 5 then code.testBit i
      else if i = 8 then true else b.testBit i := by
  simp only [BIT, Nat.one_shiftLeft, Nat.testBit_or, Nat.testBit_and, Nat.testBit_xor,
    Nat.testBit_two_pow_sub_one, Nat.testBit_two_pow]
  have hcf : ¬ (i = 13 ∨ i = 6 ∨ i = 5) → code.testBit i = false := by
    intro hn
    by_contra hcon
    exact hn (hc i (by simpa using hcon))
  by_cases h16 : i < 16
  · by_cases h13 : i = 13
    · subst h13; simp
    by_cases h6 : i = 6
    · subst h6; simp
    by_cases h5 : i = 5
    · subst h5; simp
    by_cases h8 : i = 8
    · subst h8; simp
    have := hcf (by omega)
    simp [h16, h13, h6, h5, h8, this, Ne.symm h13, Ne.symm h6, Ne.symm h5, Ne.symm h8]
  · have hbf := testBit_u16_high b i hb h16
    have := hcf (by omega)
    have h13 : ¬ i = 13 := by omega
    have h6 : ¬ i = 6 := by omega
    have h5 : ¬ i = 5 := by omega
    have h8 : ¬ i = 8 := by omega
    simp [h16, h13, h6, h5, h8, this, hbf, Ne.symm h8]

/-- The six speeds and their codes: what the `switch` selects, and where the
bits of a code lie. -/
theorem speed_codes (speed : Int) (code : Nat)
    (hs : (speed, code) ∈ [((10 : Int), 0), (100, BIT 13), (1000, BIT 6), (2500, BIT 5),
      (5000, BIT 13 ||| BIT 5), (10000, BIT 13 ||| BIT 6)]) :
    speed_sel speed = some code ∧
    (∀ j, code.testBit j = true → j = 13 ∨ j = 6 ∨ j = 5) ∧
    code &&& (BIT 13 ||| BIT 6 ||| BIT 5) = code := by
  simp only [List.mem_cons, Prod.mk.injEq, List.mem_singleton, List.not_mem_nil, or_false] at hs
  rcases hs with ⟨h1, h2⟩ | ⟨h1, h2⟩ | ⟨h1, h2⟩ | ⟨h1, h2⟩ | ⟨h1, h2⟩ | ⟨h1, h2⟩ <;>
    subst h1 h2 <;>
    refine ⟨by decide, ?_, by decide⟩ <;>
    intro j hj <;>
    simp only [BIT, Nat.one_shiftLeft, Nat.testBit_or, Nat.testBit_two_pow, Nat.zero_testBit,
      Bool.or_eq_true, decide_eq_true_eq, Bool.false_eq_true] at hj <;>
    omega

theorem u16_or_bit (a n : Nat) (ha : a < 65536) (hn : n < 16) : u16 (a ||| BIT n) = a ||| BIT n := by
  unfold u16
  apply Nat.mod_eq_of_lt
  apply Nat.or_lt_two_pow (by omega)
  rw [BIT, Nat.one_shiftLeft]
  exact Nat.pow_lt_pow_right (by omega) hn

/-- The VEND2 word of the code is the word of the pattern, and fits 16 bits. -/
theorem vend2_word_eq (b code : Nat) (hb : b < 65536)
    (hc : ∀ j, code.testBit j = true → j = 13 ∨ j = 6 ∨ j = 5) :
    u16 ((b &&& not32 DW_USXGMII_SS_MASK) ||| (code ||| DW_USXGMII_FULL)) =
      (b &&& ((2 ^ 16 - 1) ^^^ (BIT 13 ||| BIT 6 ||| BIT 5))) ||| code ||| BIT 8 ∧
    u16 ((b &&& ((2 ^ 16 - 1) ^^^ (BIT 13 ||| BIT 6 ||| BIT 5))) ||| code ||| BIT 8) =
      (b &&& ((2 ^ 16 - 1) ^^^ (BIT 13 ||| BIT 6 ||| BIT 5))) ||| code ||| BIT 8 := by
  have h1 : u16 ((b &&& not32 DW_USXGMII_SS_MASK) ||| (code ||| DW_USXGMII_FULL)) =
      (b &&& ((2 ^ 16 - 1) ^^^ (BIT 13 ||| BIT 6 ||| BIT 5))) ||| code ||| BIT 8 := by
    apply Nat.eq_of_testBit_eq
    intro i
    rw [vend2_word_bits b code i hb hc, pattern_word_bits b code i hb hc]
  refine ⟨h1, ?_⟩
  rw [← h1]
  unfold u16
  exact Nat.mod_mod _ _

/-- C10: for each of the six speeds, with the three reads returning the 16-bit
values `a`, `b`, `c` and the first two writes succeeding,
`xpcs_config_usxgmii` makes exactly six transfers: read vendor PCS CTRL1, write
it with `a | bit 9`; read VEND2 CTRL1, write it with
`(b & ~(bit13|bit6|bit5)) | code | bit 8`; read vendor PCS CTRL1 again, write it
with `c | bit 10`; and returns the result of the last write.  The speed-select
field of the VEND2 word is the code, bit 8 is set, every other bit is that of
`b`, and two speeds with the same code are the same speed. -/
theorem config_usxgmii_pattern (K : Hdr) (config : phylink_config)
    (w w1 w2 w3 w4 w5 : World) (speed : Int) (code a b c : Nat) (r2 r4 : Int)
    (hs : (speed, code) ∈ [((10 : Int), 0), (100, BIT 13), (1000, BIT 6), (2500, BIT 5),
      (5000, BIT 13 ||| BIT 5), (10000, BIT 13 ||| BIT 6)])
    (e1 : xpcs_read_vpcs K config w K.MDIO_CTRL1 = ((a : Int), w1)) (ha : a < 65536)
    (e2 : xpcs_write_vpcs K config w1 K.MDIO_CTRL1 (a ||| BIT 9) = (r2, w2)) (h2 : 0 ≤ r2)
    (e3 : xpcs_read K config w2 K.MDIO_MMD_VEND2 K.MDIO_CTRL1 = ((b : Int), w3))
    (hb : b < 65536)
    (e4 : xpcs_write K config w3 K.MDIO_MMD_VEND2 K.MDIO_CTRL1
      ((b &&& ((2 ^ 16 - 1) ^^^ (BIT 13 ||| BIT 6 ||| BIT 5))) ||| code ||| BIT 8) = (r4, w4))
    (h4 : 0 ≤ r4)
    (e5 : xpcs_read_vpcs K config w4 K.MDIO_CTRL1 = ((c : Int), w5)) (hc : c < 65536) :
    xpcs_config_usxgmii K config w speed =
      xpcs_write_vpcs K config w5 K.MDIO_CTRL1 (c ||| BIT 10) ∧
    (xpcs_config_usxgmii K config w speed).2.trace = w.trace ++
      [Access.rd config.pcs_addr (reg_addr K K.MDIO_MMD_PCS (DW_VENDOR ||| K.MDIO_CTRL1)),
       Access.wr config.pcs_addr (reg_addr K K.MDIO_MMD_PCS (DW_VENDOR ||| K.MDIO_CTRL1))
         (a ||| BIT 9),
       Access.rd config.pcs_addr (reg_addr K K.MDIO_MMD_VEND2 K.MDIO_CTRL1),
       Access.wr config.pcs_addr (reg_addr K K.MDIO_MMD_VEND2 K.MDIO_CTRL1)
         ((b &&& ((2 ^ 16 - 1) ^^^ (BIT 13 ||| BIT 6 ||| BIT 5))) ||| code ||| BIT 8),
       Access.rd config.pcs_addr (reg_addr K K.MDIO_MMD_PCS (DW_VENDOR ||| K.MDIO_CTRL1)),
       Access.wr config.pcs_addr (reg_addr K K.MDIO_MMD_PCS (DW_VENDOR ||| K.MDIO_CTRL1))
         (c ||| BIT 10)] ∧
    ((b &&& ((2 ^ 16 - 1) ^^^ (BIT 13 ||| BIT 6 ||| BIT 5))) ||| code ||| BIT 8) &&&
      (BIT 13 ||| BIT 6 ||| BIT 5) = code ∧
    ((b &&& ((2 ^ 16 - 1) ^^^ (BIT 13 ||| BIT 6 ||| BIT 5))) ||| code ||| BIT 8).testBit 8 =
      true ∧
    (∀ i, i ≠ 13 → i ≠ 6 → i ≠ 5 → i ≠ 8 →
      ((b &&& ((2 ^ 16 - 1) ^^^ (BIT 13 ||| BIT 6 ||| BIT 5))) ||| code ||| BIT 8).testBit i =
        b.testBit i) ∧
    (∀ speed' : Int,
      (speed', code) ∈ [((10 : Int), 0), (100, BIT 13), (1000, BIT 6), (2500, BIT 5),
        (5000, BIT 13 ||| BIT 5), (10000, BIT 13 ||| BIT 6)] → speed' = speed) := by
  obtain ⟨hsel, hbits, -⟩ := speed_codes speed code hs
  obtain ⟨hV, hV16⟩ := vend2_word_eq b code hb hbits
  have na : ¬ ((a : Int) < 0) := by omega
  have nb : ¬ ((b : Int) < 0) := by omega
  have nc : ¬ ((c : Int) < 0) := by omega
  have n2 : ¬ r2 < 0 := by omega
  have n4 : ¬ r4 < 0 := by omega
  have hw4 : xpcs_write K config w3 K.MDIO_MMD_VEND2 K.MDIO_CTRL1
      ((b &&& not32 DW_USXGMII_SS_MASK) ||| (code ||| DW_USXGMII_FULL)) = (r4, w4) := by
    rw [← e4]
    unfold xpcs_write
    rw [hV, hV16]
  have hrun : xpcs_config_usxgmii K config w speed =
      xpcs_write_vpcs K config w5 K.MDIO_CTRL1 (c ||| BIT 10) := by
    unfold xpcs_config_usxgmii
    rw [hsel]
    simp only []
    rw [e1]
    simp only [Int.toNat_ofNat]
    rw [if_neg na, show DW_USXGMII_EN = BIT 9 from rfl, e2]
    simp only []
    rw [if_neg n2, e3]
    simp only [Int.toNat_ofNat]
    rw [if_neg nb, hw4]
    simp only []
    rw [if_neg n4, e5]
    simp only [Int.toNat_ofNat]
    rw [if_neg nc]
    rfl
  refine ⟨hrun, ?_, ?_, ?_, ?_, ?_⟩
  · rw [hrun]
    have t1 : w1.trace = w.trace ++
        [Access.rd config.pcs_addr (reg_addr K K.MDIO_MMD_PCS (DW_VENDOR ||| K.MDIO_CTRL1))] :=
      (congrArg (fun r => r.2.trace) e1).symm
    have t2 : w2.trace = w1.trace ++
        [Access.wr config.pcs_addr (reg_addr K K.MDIO_MMD_PCS (DW_VENDOR ||| K.MDIO_CTRL1))
          (u16 (a ||| BIT 9))] :=
      (congrArg (fun r => r.2.trace) e2).symm
    have t3 : w3.trace = w2.trace ++
        [Access.rd config.pcs_addr (reg_addr K K.MDIO_MMD_VEND2 K.MDIO_CTRL1)] :=
      (congrArg (fun r => r.2.trace) e3).symm
    have t4 : w4.trace = w3.trace ++
        [Access.wr config.pcs_addr (reg_addr K K.MDIO_MMD_VEND2 K.MDIO_CTRL1)
          (u16 ((b &&& ((2 ^ 16 - 1) ^^^ (BIT 13 ||| BIT 6 ||| BIT 5))) ||| code ||| BIT 8))] :=
      (congrArg (fun r => r.2.trace) e4).symm
    have t5 : w5.trace = w4.trace ++
        [Access.rd config.pcs_addr (reg_addr K K.MDIO_MMD_PCS (DW_VENDOR ||| K.MDIO_CTRL1))] :=
      (congrArg (fun r => r.2.trace) e5).symm
    have t6 : (xpcs_write_vpcs K config w5 K.MDIO_CTRL1 (c ||| BIT 10)).2.trace = w5.trace ++
        [Access.wr config.pcs_addr (reg_addr K K.MDIO_MMD_PCS (DW_VENDOR ||| K.MDIO_CTRL1))
          (u16 (c ||| BIT 10))] := rfl
    rw [t6, t5, t4, t3, t2, t1, hV16, u16_or_bit a 9 ha (by omega),
      u16_or_bit c 10 hc (by omega)]
    simp only [List.append_assoc, List.singleton_append, List.cons_append, List.nil_append]
  · apply Nat.eq_of_testBit_eq
    intro i
    rw [Nat.testBit_and, pattern_word_bits b code i hb hbits]
    simp only [BIT, Nat.one_shiftLeft, Nat.testBit_or, Nat.testBit_two_pow]
    by_cases hi : i = 13 ∨ i = 6 ∨ i = 5
    · rw [if_pos hi]
      rcases hi with h | h | h <;> subst h <;> simp
    · rw [if_neg hi]
      have hcf : code.testBit i = false := by
        by_contra hcon
        exact hi (hbits i (by simpa using hcon))
      rw [hcf]
      have h13 : ¬ 13 = i := by omega
      have h6 : ¬ 6 = i := by omega
      have h5 : ¬ 5 = i := by omega
      simp [h13, h6, h5]
  · rw [pattern_word_bits b code 8 hb hbits]
    simp
  · intro i h13 h6 h5 h8
    rw [pattern_word_bits b code i hb hbits]
    have : ¬ (i = 13 ∨ i = 6 ∨ i = 5) := by omega
    rw [if_neg this, if_neg h8]
  · intro speed' hs'
    simp only [List.mem_cons, Prod.mk.injEq, List.mem_singleton, List.not_mem_nil,
      or_false] at hs hs'
    have b13 : BIT 13 = 8192 := rfl
    have b6 : BIT 6 = 64 := rfl
    have b5 : BIT 5 = 32 := rfl
    have b135 : (8192 ||| 32 : Nat) = 8224 := rfl
    have b136 : (8192 ||| 64 : Nat) = 8256 := rfl
    rw [b13, b6, b5, b135, b136] at hs hs'
    omega

/-- Speed 10000 on a bus that answers the three reads with 0x0, 0x1020 and
0x200: the writes are 0x200, 0x3140 (speed code bit13|bit6 with bit 5 cleared,
bit 8 set, bit 12 kept) and 0x600. -/
theorem config_usxgmii_pattern_witness :
    (xpcs_config_usxgmii linux
      { pcs_bus := script_bus [0x0, 0, 0x1020, 0, 0x200, 0], pcs_addr := 0, pcs_supported := 0 }
      World.init 10000).2.trace = [] ++
      [Access.rd 0 0x40038000, Access.wr 0 0x40038000 0x200,
       Access.rd 0 0x401f0000, Access.wr 0 0x401f0000 0x3140,
       Access.rd 0 0x40038000, Access.wr 0 0x40038000 0x600] :=
  (config_usxgmii_pattern linux
    { pcs_bus := script_bus [0x0, 0, 0x1020, 0, 0x200, 0], pcs_addr := 0, pcs_supported := 0 }
    World.init _ _ _ _ _ 10000 (BIT 13 ||| BIT 6) 0x0 0x1020 0x200 0 0
    (by decide) rfl (by decide) rfl (by decide) rfl (by decide) rfl (by decide) rfl
    (by decide)).2.1

/-! ## Polling: the paths of `xpcs_get_state` -/

theorem ite_true_false_eq_decide (c : Prop) [Decidable c] :
    (if c then true else false) = decide c := by
  by_cases h : c <;> simp [h]

/-- The fault-recovery path with a successful soft reset. -/
theorem get_state_recovered (K : Hdr) (config : phylink_config) (w w1 w2 w3 : World)
    (st : phylink_link_state) (rl rf : Int)
    (e_link : xpcs_read_link K config w = (rl, w1))
    (e_fault : xpcs_read_fault K config w1 { st with link := decide (0 < rl) } = (rf, w2))
    (hrf : rf ≠ 0)
    (e_reset : xpcs_soft_reset K config w2 K.MDIO_MMD_PCS = (0, w3)) :
    xpcs_get_state K config w st =
      ((xpcs_config_aneg K config w3).2, { st with link := false }) := by
  unfold xpcs_get_state
  rw [e_link]
  simp only [gt_iff_lt, ite_true_false_eq_decide]
  rw [e_fault]
  simp only []
  rw [if_pos hrf, e_reset]
  simp

/-- The fault-recovery path with a failed soft reset. -/
theorem get_state_reset_failed (K : Hdr) (config : phylink_config) (w w1 w2 w3 : World)
    (st : phylink_link_state) (rl rf rr : Int)
    (e_link : xpcs_read_link K config w = (rl, w1))
    (e_fault : xpcs_read_fault K config w1 { st with link := decide (0 < rl) } = (rf, w2))
    (hrf : rf ≠ 0)
    (e_reset : xpcs_soft_reset K config w2 K.MDIO_MMD_PCS = (rr, w3)) (hrr : rr ≠ 0) :
    xpcs_get_state K config w st = (w3, { st with link := decide (0 < rl) }) := by
  unfold xpcs_get_state
  rw [e_link]
  simp only [gt_iff_lt, ite_true_false_eq_decide]
  rw [e_fault]
  simp only []
  rw [if_pos hrf, e_reset]
  simp only []
  rw [if_pos hrr]

/-- The healthy path with the link down. -/
theorem get_state_healthy_down (K : Hdr) (config : phylink_config) (w w1 w2 : World)
    (st : phylink_link_state) (rl : Int)
    (e_link : xpcs_read_link K config w = (rl, w1)) (hl : ¬ 0 < rl)
    (e_fault : xpcs_read_fault K config w1 { st with link := false } = (0, w2)) :
    xpcs_get_state K config w st = (w2, { st with link := false }) := by
  unfold xpcs_get_state
  rw [e_link]
  simp only [gt_iff_lt, ite_true_false_eq_decide, hl, decide_False]
  rw [e_fault]
  simp

/-- The healthy path with the link up and the completion check returning 0. -/
theorem get_state_healthy_not_done (K : Hdr) (config : phylink_config) (w w1 w2 w3 : World)
    (st : phylink_link_state) (rl : Int)
    (e_link : xpcs_read_link K config w = (rl, w1)) (hl : 0 < rl)
    (e_fault : xpcs_read_fault K config w1 { st with link := true } = (0, w2))
    (e_done : xpcs_aneg_done K config w2 { st with link := true } = (0, w3)) :
    xpcs_get_state K config w st = (w3, { st with link := true }) := by
  unfold xpcs_get_state
  rw [e_link]
  simp only [gt_iff_lt, ite_true_false_eq_decide, hl, decide_True]
  rw [e_fault]
  simp only [ne_eq, not_true_eq_false, if_false, if_true]
  rw [e_done]
  simp

/-- The healthy path with the link up and the completion check returning a
value other than 0: the partner words are read and the speed is resolved. -/
theorem get_state_resolved (K : Hdr) (config : phylink_config) (w w1 w2 w3 : World)
    (st : phylink_link_state) (rl rd : Int)
    (e_link : xpcs_read_link K config w = (rl, w1)) (hl : 0 < rl)
    (e_fault : xpcs_read_fault K config w1 { st with link := true } = (0, w2))
    (e_done : xpcs_aneg_done K config w2 { st with link := true } = (rd, w3))
    (hrd : rd ≠ 0) :
    xpcs_get_state K config w st =
      ((xpcs_read_lpa K config w3 { st with link := true, an_complete := true }).2.1,
       xpcs_resolve_lpa K config
         (xpcs_read_lpa K config w3 { st with link := true, an_complete := true }).2.2) := by
  unfold xpcs_get_state
  rw [e_link]
  simp only [gt_iff_lt, ite_true_false_eq_decide, hl, decide_True]
  rw [e_fault]
  simp only [ne_eq, not_true_eq_false, if_false, if_true]
  rw [e_done]
  simp only []
  rw [if_pos hrd]

/-! ## Polling: link down on failure -/

/-- C11, as stated, fails: the link reads report link up, the read of PCS STAT1
in the fault check fails with -5 and so does the write of the reset bit; the
poll ends after these four transfers with `link` still true. -/
theorem get_state_link_stays_up :
    (xpcs_get_state linux failing_reset_config World.init (state_of 0 0)).1.trace =
      [Access.rd 0 0x40030001, Access.rd 0 0x40070001, Access.rd 0 0x40030001,
       Access.wr 0 0x40030000 0x8000] ∧
    failing_reset_config.pcs_bus.xfer
      [Access.rd 0 0x40030001, Access.rd 0 0x40070001] (Access.rd 0 0x40030001) = -5 ∧
    failing_reset_config.pcs_bus.xfer
      [Access.rd 0 0x40030001, Access.rd 0 0x40070001, Access.rd 0 0x40030001]
      (Access.wr 0 0x40030000 0x8000) = -5 ∧
    (xpcs_get_state linux failing_reset_config World.init (state_of 0 0)).2.link = true := by
  decide

/-- C11, amended: `xpcs_get_state` leaves `link` false when the link read does
not return a positive value (one of its reads failed, or the link is down), and
when the fault check returns a value other than 0 (a fault or a failed read)
and the soft reset then returns 0, whatever the restart of autonegotiation
does; in the second case only `link` is changed in the state. -/
theorem get_state_link_down (K : Hdr) (config : phylink_config) (w w1 : World)
    (st : phylink_link_state) (rl : Int)
    (e_link : xpcs_read_link K config w = (rl, w1)) :
    (¬ 0 < rl → (xpcs_get_state K config w st).2.link = false) ∧
    (∀ (rf : Int) (w2 w3 : World),
      xpcs_read_fault K config w1 { st with link := decide (0 < rl) } = (rf, w2) →
      rf ≠ 0 →
      xpcs_soft_reset K config w2 K.MDIO_MMD_PCS = (0, w3) →
      xpcs_get_state K config w st =
        ((xpcs_config_aneg K config w3).2, { st with link := false })) := by
  constructor
  · intro hl
    have hd : decide (0 < rl) = false := by simpa using hl
    rcases e_fault : xpcs_read_fault K config w1 { st with link := decide (0 < rl) }
      with ⟨rf, w2⟩
    by_cases hrf : rf = 0
    · subst hrf
      rw [hd] at e_fault
      rw [get_state_healthy_down K config w w1 w2 st rl e_link hl e_fault]
    · rcases e_reset : xpcs_soft_reset K config w2 K.MDIO_MMD_PCS with ⟨rr, w3⟩
      by_cases hrr : rr = 0
      · subst hrr
        rw [get_state_recovered K config w w1 w2 w3 st rl rf e_link e_fault hrf e_reset]
      · rw [get_state_reset_failed K config w w1 w2 w3 st rl rf rr e_link e_fault hrf
          e_reset hrr]
        exact hd
  · intro rf w2 w3 e_fault hrf e_reset
    exact get_state_recovered K config w w1 w2 w3 st rl rf e_link e_fault hrf e_reset

/-- The link registers report link up, PCS STAT1 has the fault bit, the reset
succeeds: the poll ends with `link` false. -/
theorem get_state_link_down_witness :
    (xpcs_get_state linux faulty_config World.init (state_of 0 0)).2.link = false :=
  congrArg (fun r => r.2.link)
    ((get_state_link_down linux faulty_config World.init _ (state_of 0 0) 1 rfl).2
      _ _ _ rfl (by decide) rfl)

/-! ## Completion of autonegotiation -/

theorem and_one_eq_zero_iff (x : Nat) : x &&& DW_C73_AN_ADV_SF = 0 ↔ x.testBit 0 = false := by
  have h : DW_C73_AN_ADV_SF = 1 := rfl
  rw [h, Nat.and_one_is_mod, Nat.testBit_zero]
  constructor
  · intro h0
    simp [h0]
  · intro h0
    have : ¬ x % 2 = 1 := by simpa using h0
    omega

/-- C12, as stated, fails: with the AN-complete bit set and a selector field of
0x3 in LP_ABL1, which is not the constant 0x1, `xpcs_aneg_done` returns 1. -/
theorem aneg_done_accepts_selector3 :
    (xpcs_read linux selector3_config World.init linux.MDIO_MMD_AN linux.MDIO_STAT1).1 =
      0x20 ∧
    (xpcs_read linux selector3_config
      (xpcs_read linux selector3_config World.init linux.MDIO_MMD_AN linux.MDIO_STAT1).2
      linux.MDIO_MMD_AN DW_SR_AN_LP_ABL1).1 = 0x3 ∧
    0x3 % 2 ^ 5 ≠ DW_C73_AN_ADV_SF ∧
    (xpcs_aneg_done linux selector3_config World.init (state_of 0 0)).1 = 1 := by
  decide

/-- C12, amended: with `s` the read of AN STAT1 and `l` the read of LP_ABL1 that
follows it, `xpcs_aneg_done` returns the error of `s` if it fails; with the
AN-complete bit clear it returns 0 after that single read; with the bit set it
returns the error of `l` if it fails, 1 if bit 0 of `l` (the bit of the
constant 0x1) is set, whatever the other bits of the selector field, and 0 if
bit 0 is clear.  So for successful reads the result is 1 exactly when the
AN-complete bit and bit 0 of LP_ABL1 are set. -/
theorem aneg_done_tests_bit0 (K : Hdr) (config : phylink_config) (w : World)
    (st : phylink_link_state) :
    let s := xpcs_read K config w K.MDIO_MMD_AN K.MDIO_STAT1
    let l := xpcs_read K config s.2 K.MDIO_MMD_AN DW_SR_AN_LP_ABL1
    (xpcs_aneg_done K config w st =
      if s.1 < 0 then s
      else if s.1.toNat &&& K.MDIO_AN_STAT1_COMPLETE ≠ 0 then
        (if l.1 < 0 then l
         else if l.1.toNat.testBit 0 = true then (1, l.2) else (0, l.2))
      else (0, s.2)) ∧
    (0 ≤ s.1 → 0 ≤ l.1 →
      ((xpcs_aneg_done K config w st).1 = 1 ↔
        s.1.toNat &&& K.MDIO_AN_STAT1_COMPLETE ≠ 0 ∧ l.1.toNat.testBit 0 = true)) := by
  intro s l
  have key : xpcs_aneg_done K config w st =
      if s.1 < 0 then s
      else if s.1.toNat &&& K.MDIO_AN_STAT1_COMPLETE ≠ 0 then
        (if l.1 < 0 then l
         else if l.1.toNat.testBit 0 = true then (1, l.2) else (0, l.2))
      else (0, s.2) := by
    unfold xpcs_aneg_done
    simp only [and_one_eq_zero_iff]
    by_cases h1 : s.1 < 0
    · simp only [s] at h1
      simp only [s, h1, if_true]
    · by_cases h2 : s.1.toNat &&& K.MDIO_AN_STAT1_COMPLETE ≠ 0
      · by_cases h3 : l.1 < 0
        · simp only [s, l] at h1 h2 h3
          simp only [s, l, h1, h2, h3, if_true, if_false, ne_eq, not_false_eq_true]
        · by_cases h4 : l.1.toNat.testBit 0 = true
          · simp only [s, l] at h1 h2 h3 h4
            simp [s, l, h1, h2, h3, h4]
          · simp only [s, l] at h1 h2 h3 h4
            simp [s, l, h1, h2, h3, h4]
      · simp only [s] at h1 h2
        simp only [s, h1, h2, if_false]
  refine ⟨key, ?_⟩
  intro hs hl
  rw [key]
  have n1 : ¬ s.1 < 0 := by omega
  have n3 : ¬ l.1 < 0 := by omega
  rw [if_neg n1]
  by_cases h2 : s.1.toNat &&& K.MDIO_AN_STAT1_COMPLETE ≠ 0
  · rw [if_pos h2, if_neg n3]
    by_cases h4 : l.1.toNat.testBit 0 = true
    · rw [if_pos h4]
      simp [h2, h4]
    · rw [if_neg h4]
      simp [h4]
  · rw [if_neg h2]
    simp [h2]

/-! ## Partner abilities -/

theorem test_bit_clear_bit (i nr : Nat) (bm : linkmode) :
    test_bit i (clear_bit nr bm) = (test_bit i bm && !decide (nr = i)) := by
  simp only [test_bit, clear_bit, BIT, Nat.one_shiftLeft, Nat.testBit_xor, Nat.testBit_and,
    Nat.testBit_two_pow]
  cases Nat.testBit bm i <;> cases decide (nr = i) <;> rfl

/-- The path of `xpcs_read_lpa` for a partner that is not able to
autonegotiate: one read, and only the Autoneg bit is cleared. -/
theorem read_lpa_not_able (K : Hdr) (config : phylink_config) (w w0 : World)
    (st : phylink_link_state) (r0 : Int)
    (e0 : xpcs_read K config w K.MDIO_MMD_AN K.MDIO_STAT1 = (r0, w0))
    (hst : 0 ≤ r0) (hable : r0.toNat &&& K.MDIO_AN_STAT1_LPABLE = 0) :
    xpcs_read_lpa K config w st =
      (0, w0, { st with
        lp_advertising := clear_bit K.ETHTOOL_LINK_MODE_Autoneg_BIT st.lp_advertising }) := by
  have n0 : ¬ r0 < 0 := by omega
  unfold xpcs_read_lpa
  rw [e0]
  simp only []
  rw [if_neg n0, if_pos hable]

/-- When `xpcs_read_lpa` returns 0, either the partner is not able and only the
Autoneg bit was cleared, or the partner is able and the bitmap is an
intersection with `advertising`. -/
theorem read_lpa_returns_zero (K : Hdr) (config : phylink_config) (w w0 : World)
    (st : phylink_link_state) (r0 : Int)
    (e0 : xpcs_read K config w K.MDIO_MMD_AN K.MDIO_STAT1 = (r0, w0))
    (h : (xpcs_read_lpa K config w st).1 = 0) :
    (r0.toNat &&& K.MDIO_AN_STAT1_LPABLE = 0 ∧
      (xpcs_read_lpa K config w st).2.2 = { st with
        lp_advertising := clear_bit K.ETHTOOL_LINK_MODE_Autoneg_BIT st.lp_advertising }) ∨
    (r0.toNat &&& K.MDIO_AN_STAT1_LPABLE ≠ 0 ∧
      ∃ lp, (xpcs_read_lpa K config w st).2.2 = { st with
        lp_advertising := linkmode_and lp st.advertising }) := by
  unfold xpcs_read_lpa at h ⊢
  rw [e0] at h ⊢
  simp only [] at h ⊢
  by_cases n0 : r0 < 0
  · rw [if_pos n0] at h
    simp only [] at h
    omega
  rw [if_neg n0] at h ⊢
  by_cases hable : r0.toNat &&& K.MDIO_AN_STAT1_LPABLE = 0
  · left
    rw [if_pos hable]
    exact ⟨hable, rfl⟩
  right
  refine ⟨hable, ?_⟩
  rw [if_neg hable] at h ⊢
  rcases e3 : xpcs_read K config w0 K.MDIO_MMD_AN DW_SR_AN_LP_ABL3 with ⟨r3, w3⟩
  rw [e3] at h
  simp only [] at h ⊢
  by_cases n3 : r3 < 0
  · rw [if_pos n3] at h
    simp only [] at h
    omega
  rw [if_neg n3] at h ⊢
  rcases e2 : xpcs_read K config w3 K.MDIO_MMD_AN DW_SR_AN_LP_ABL2 with ⟨r2, w2⟩
  rw [e2] at h
  simp only [] at h ⊢
  by_cases n2 : r2 < 0
  · rw [if_pos n2] at h
    simp only [] at h
    omega
  rw [if_neg n2] at h ⊢
  rcases e1 : xpcs_read K config w2 K.MDIO_MMD_AN DW_SR_AN_LP_ABL1 with ⟨r1, w1⟩
  rw [e1] at h
  simp only [] at h ⊢
  by_cases n1 : r1 < 0
  · rw [if_pos n1] at h
    simp only [] at h
    omega
  rw [if_neg n1]
  exact ⟨_, rfl⟩

/-! ## Polling: mutual capabilities -/

/-- C13, as stated, fails.  With a partner that is not able to autonegotiate,
a state entered with `lp_advertising` = {10000baseKR_Full} (bit 19) and
nothing advertised leaves the poll with that mode still in `lp_advertising`
and the speed resolved to 10000.  With an empty `lp_advertising` on entry and
nothing advertised, a failed read of LP_ABL2 leaves Autoneg and 2500baseX_Full
(bits 6 and 15) in `lp_advertising` and the speed resolved to 2500. -/
theorem get_state_lp_not_mutual :
    ((xpcs_get_state linux not_able_config World.init (state_of 0 0x80000)).2.an_complete =
        true ∧
      (xpcs_get_state linux not_able_config World.init (state_of 0 0x80000)).2.lp_advertising =
        0x80000 ∧
      (xpcs_get_state linux not_able_config World.init (state_of 0 0x80000)).2.advertising =
        0 ∧
      (xpcs_get_state linux not_able_config World.init (state_of 0 0x80000)).2.speed =
        10000) ∧
    ((xpcs_get_state linux failing_lpa_config World.init (state_of 0 0)).2.an_complete =
        true ∧
      (xpcs_get_state linux failing_lpa_config World.init (state_of 0 0)).2.lp_advertising =
        0x8040 ∧
      (xpcs_get_state linux failing_lpa_config World.init (state_of 0 0)).2.advertising =
        0 ∧
      (xpcs_get_state linux failing_lpa_config World.init (state_of 0 0)).2.speed =
        2500) := by
  decide

/-- C13, amended: in a call of `xpcs_get_state` that runs the resolution (link
read positive, fault check 0, completion check not 0) and in which
`xpcs_read_lpa` returns 0, if the partner is able to autonegotiate, or if
`lp_advertising` was a subset of `advertising` on entry, then on return
`an_complete` is set, `advertising` is unchanged, `lp_advertising` is a subset
of `advertising`, and the speed is the one resolved from that
`lp_advertising`. -/
theorem get_state_lp_mutual (K : Hdr) (config : phylink_config) (w w1 w2 w3 w4 : World)
    (st : phylink_link_state) (rl rd r0 : Int)
    (e_link : xpcs_read_link K config w = (rl, w1)) (hl : 0 < rl)
    (e_fault : xpcs_read_fault K config w1 { st with link := true } = (0, w2))
    (e_done : xpcs_aneg_done K config w2 { st with link := true } = (rd, w3))
    (hrd : rd ≠ 0)
    (e0 : xpcs_read K config w3 K.MDIO_MMD_AN K.MDIO_STAT1 = (r0, w4))
    (hret : (xpcs_read_lpa K config w3 { st with link := true, an_complete := true }).1 = 0)
    (hsub : r0.toNat &&& K.MDIO_AN_STAT1_LPABLE ≠ 0 ∨
      ∀ i, test_bit i st.lp_advertising = true → test_bit i st.advertising = true) :
    (xpcs_get_state K config w st).2.an_complete = true ∧
    (xpcs_get_state K config w st).2.advertising = st.advertising ∧
    (∀ i, test_bit i (xpcs_get_state K config w st).2.lp_advertising = true →
      test_bit i (xpcs_get_state K config w st).2.advertising = true) ∧
    (xpcs_get_state K config w st).2.speed =
      xpcs_get_max_usxgmii_speed K (xpcs_get_state K config w st).2.lp_advertising := by
  rw [get_state_resolved K config w w1 w2 w3 st rl rd e_link hl e_fault e_done hrd]
  rcases read_lpa_returns_zero K config w3 w4 _ r0 e0 hret with ⟨hna, hst⟩ | ⟨ha, lp, hst⟩
  · rw [hst]
    refine ⟨rfl, rfl, ?_, rfl⟩
    intro i hi
    rcases hsub with hs | hs
    · exact absurd hna hs
    · simp only [xpcs_resolve_lpa, test_bit_clear_bit, Bool.and_eq_true] at hi
      exact hs i hi.1
  · rw [hst]
    refine ⟨rfl, rfl, ?_, rfl⟩
    intro i hi
    simp only [xpcs_resolve_lpa, test_bit_linkmode_and, Bool.and_eq_true] at hi
    exact hi.2

/-- An able partner with the words 0x1, 0xa0, 0x401 and a local advertisement of
1000baseKX_Full alone (bit 17): the poll leaves `lp_advertising` =
{1000baseKX_Full} and the speed 1000. -/
theorem get_state_lp_mutual_witness :
    (xpcs_get_state linux resolved_config World.init (state_of 0x20000 0)).2.an_complete =
      true ∧
    (xpcs_get_state linux resolved_config World.init (state_of 0x20000 0)).2.advertising =
      0x20000 ∧
    (∀ i, test_bit i
        (xpcs_get_state linux resolved_config World.init (state_of 0x20000 0)).2.lp_advertising =
        true →
      test_bit i
        (xpcs_get_state linux resolved_config World.init (state_of 0x20000 0)).2.advertising =
        true) ∧
    (xpcs_get_state linux resolved_config World.init (state_of 0x20000 0)).2.speed = 1000 :=
  get_state_lp_mutual linux resolved_config World.init _ _ _ _ (state_of 0x20000 0) 1 1 0x25
    rfl (by decide) rfl rfl (by decide) rfl (by decide) (Or.inl (by decide))

/-- C14, as stated, fails: AN STAT1 reads 0x24, with the link-partner-able bit
clear, and a state entered with `lp_advertising` = {Pause} (bit 13) leaves
`xpcs_read_lpa`, which returns 0, with `lp_advertising` = {Pause}, not empty. -/
theorem read_lpa_keeps_stale_modes :
    (xpcs_read linux not_able_config World.init linux.MDIO_MMD_AN linux.MDIO_STAT1).1 =
      0x24 ∧
    0x24 &&& linux.MDIO_AN_STAT1_LPABLE = 0 ∧
    (xpcs_read_lpa linux not_able_config World.init (state_of 0 0x2000)).1 = 0 ∧
    (xpcs_read_lpa linux not_able_config World.init (state_of 0 0x2000)).2.2.lp_advertising =
      0x2000 ∧
    (0x2000 : linkmode) ≠ 0 := by
  decide

/-- C14, amended: when the read of AN STAT1 succeeds with the
link-partner-able bit clear, `xpcs_read_lpa` returns 0, that read is its only
transfer, and it leaves the state as it was but for the Autoneg bit of
`lp_advertising`, which is cleared; so `lp_advertising` is empty on return when
it was empty on entry. -/
theorem read_lpa_partner_not_able (K : Hdr) (config : phylink_config) (w w0 : World)
    (st : phylink_link_state) (r0 : Int)
    (e0 : xpcs_read K config w K.MDIO_MMD_AN K.MDIO_STAT1 = (r0, w0))
    (hst : 0 ≤ r0) (hable : r0.toNat &&& K.MDIO_AN_STAT1_LPABLE = 0) :
    xpcs_read_lpa K config w st =
      (0, w0, { st with
        lp_advertising := clear_bit K.ETHTOOL_LINK_MODE_Autoneg_BIT st.lp_advertising }) ∧
    (xpcs_read_lpa K config w st).2.1.trace = w.trace ++
      [Access.rd config.pcs_addr (reg_addr K K.MDIO_MMD_AN K.MDIO_STAT1)] ∧
    (∀ i, test_bit i (xpcs_read_lpa K config w st).2.2.lp_advertising =
      (test_bit i st.lp_advertising && !decide (K.ETHTOOL_LINK_MODE_Autoneg_BIT = i))) ∧
    (st.lp_advertising = 0 → (xpcs_read_lpa K config w st).2.2.lp_advertising = 0) := by
  have hrun := read_lpa_not_able K config w w0 st r0 e0 hst hable
  have htr : w0.trace = w.trace ++
      [Access.rd config.pcs_addr (reg_addr K K.MDIO_MMD_AN K.MDIO_STAT1)] :=
    (congrArg (fun r => r.2.trace) e0).symm
  rw [hrun]
  refine ⟨rfl, htr, ?_, ?_⟩
  · intro i
    exact test_bit_clear_bit i _ _
  · intro h0
    simp [h0, clear_bit]

/-- AN STAT1 reads 0x24 and only Autoneg (bit 6) is in `lp_advertising` on
entry: one read, result 0, `lp_advertising` empty. -/
theorem read_lpa_partner_not_able_witness :
    xpcs_read_lpa linux not_able_config World.init (state_of 0 0x40) =
      (0, { trace := [Access.rd 0 0x40070001], warnings := [] }, state_of 0 0) :=
  (read_lpa_partner_not_able linux not_able_config World.init _ (state_of 0 0x40) 0x24
    rfl (by decide) (by decide)).1

/-! ## Probe: failed identification reads -/

/-- C15, as stated, fails: the read of PHYSID1 fails with -5 and
`xpcs_hw_probe` returns -19 (-ENODEV), not -5. -/
theorem hw_probe_hides_read_error :
    (xpcs_read linux dead_bus_config World.init linux.MDIO_MMD_PCS linux.MII_PHYSID1).1 =
      -5 ∧
    (xpcs_hw_probe linux dead_bus_config World.init linux.PHY_INTERFACE_MODE_USXGMII 0).1 =
      -(linux.ENODEV : Int) ∧
    -(linux.ENODEV : Int) ≠ -5 := by
  decide

/-- When one of its reads fails, `xpcs_get_id` gives the identifier 0xffffffff
right after that read. -/
theorem get_id_read_failure (K : Hdr) (config : phylink_config) (w : World)
    (h : (xpcs_read K config w K.MDIO_MMD_PCS K.MII_PHYSID1).1 < 0 ∨
      (xpcs_read K config (xpcs_read K config w K.MDIO_MMD_PCS K.MII_PHYSID1).2
        K.MDIO_MMD_PCS K.MII_PHYSID2).1 < 0) :
    xpcs_get_id K config w =
      (0xffffffff,
       if (xpcs_read K config w K.MDIO_MMD_PCS K.MII_PHYSID1).1 < 0
       then (xpcs_read K config w K.MDIO_MMD_PCS K.MII_PHYSID1).2
       else (xpcs_read K config (xpcs_read K config w K.MDIO_MMD_PCS K.MII_PHYSID1).2
        K.MDIO_MMD_PCS K.MII_PHYSID2).2) := by
  unfold xpcs_get_id
  rcases e1 : xpcs_read K config w K.MDIO_MMD_PCS K.MII_PHYSID1 with ⟨r1, w1⟩
  rw [e1] at h
  simp only [] at h ⊢
  by_cases n1 : r1 < 0
  · rw [if_pos n1, if_pos n1]
  · rw [if_neg n1, if_neg n1]
    rcases e2 : xpcs_read K config w1 K.MDIO_MMD_PCS K.MII_PHYSID2 with ⟨r2, w2⟩
    rw [e2] at h
    simp only [] at h ⊢
    have n2 : r2 < 0 := by
      rcases h with h | h
      · exact absurd h n1
      · exact h
    rw [if_pos n2]

/-- C15, amended: if the read of PHYSID1 fails, or that of PHYSID2 after it,
`xpcs_hw_probe` makes no further transfer, returns -ENODEV (the error of the
read is not passed on: `xpcs_get_id` turns it into the identifier 0xffffffff,
which matches no entry of the table) and leaves the supported set
unchanged. -/
theorem hw_probe_read_failure (K : Hdr) (config : phylink_config) (w : World)
    (interface : Nat) (supported : linkmode)
    (h : (xpcs_read K config w K.MDIO_MMD_PCS K.MII_PHYSID1).1 < 0 ∨
      (xpcs_read K config (xpcs_read K config w K.MDIO_MMD_PCS K.MII_PHYSID1).2
        K.MDIO_MMD_PCS K.MII_PHYSID2).1 < 0) :
    xpcs_hw_probe K config w interface supported =
      (-(K.ENODEV : Int),
       if (xpcs_read K config w K.MDIO_MMD_PCS K.MII_PHYSID1).1 < 0
       then (xpcs_read K config w K.MDIO_MMD_PCS K.MII_PHYSID1).2
       else (xpcs_read K config (xpcs_read K config w K.MDIO_MMD_PCS K.MII_PHYSID1).2
        K.MDIO_MMD_PCS K.MII_PHYSID2).2,
       supported) := by
  have hg := get_id_read_failure K config w h
  have hmask : (0xffffffff : Nat) &&& SYNOPSYS_XPCS_USXGMII_MASK = 0xffffffff := by
    have hm : SYNOPSYS_XPCS_USXGMII_MASK = 2 ^ 32 - 1 := by decide
    rw [hm, Nat.and_pow_two_sub_one_eq_mod]
  have hID : SYNOPSYS_XPCS_USXGMII_ID = 0x7996ced0 := rfl
  have hno : xpcs_find_match 0xffffffff (xpcs_id_list K) = none := by
    simp only [xpcs_id_list, xpcs_find_match, hmask, hID]
    rw [if_neg (by omega)]
  unfold xpcs_hw_probe
  rcases e : xpcs_get_id K config w with ⟨id, w'⟩
  rw [e] at hg
  obtain ⟨hid, hw'⟩ := Prod.mk.inj hg
  simp only []
  rw [hid, hno, hw']

/-- The first read fails with -5: one transfer, result -19, the supported set
(here {Pause}, bit 13) unchanged. -/
theorem hw_probe_read_failure_witness :
    xpcs_hw_probe linux dead_bus_config World.init linux.PHY_INTERFACE_MODE_USXGMII 0x2000 =
      (-19, { trace := [Access.rd 0 0x40030002], warnings := [] }, 0x2000) :=
  hw_probe_read_failure linux dead_bus_config World.init linux.PHY_INTERFACE_MODE_USXGMII
    0x2000 (Or.inl (by decide))

/-! ## Fault classification -/

theorem xpcs_warn_trace (w : World) (st : phylink_link_state) (m : Warning) :
    (xpcs_warn w st m).trace = w.trace := by
  unfold xpcs_warn
  split <;> rfl

theorem rxfifo_err_bits (d : Nat) :
    d &&& DW_RXFIFO_ERR = 0 ↔ d.testBit 5 = false ∧ d.testBit 6 = false := by
  have hm : DW_RXFIFO_ERR = 2 ^ 5 ||| 2 ^ 6 := by decide
  rw [hm]
  constructor
  · intro h
    have h5 := congrArg (fun n => Nat.testBit n 5) h
    have h6 := congrArg (fun n => Nat.testBit n 6) h
    simp only [Nat.testBit_and, Nat.testBit_or, Nat.testBit_two_pow, Nat.zero_testBit] at h5 h6
    constructor
    · simpa using h5
    · simpa using h6
  · rintro ⟨h5, h6⟩
    apply Nat.eq_of_testBit_eq
    intro i
    simp only [Nat.testBit_and, Nat.testBit_or, Nat.testBit_two_pow, Nat.zero_testBit]
    by_cases e5 : 5 = i
    · subst e5; simp [h5]
    · by_cases e6 : 6 = i
      · subst e6; simp [h6]
      · simp [e5, e6]

/-- What a read returns depends on the transfers made so far only, not on the
warnings printed. -/
theorem xpcs_read_value_congr (K : Hdr) (config : phylink_config) (w w' : World)
    (dev reg : Nat) (h : w.trace = w'.trace) :
    (xpcs_read K config w dev reg).1 = (xpcs_read K config w' dev reg).1 := by
  simp only [xpcs_read, mdiobus_read, h]

/-- The result of `xpcs_read_fault` when its five reads succeed with the values
`s1`, `s2`, `d`, `b1`, `b2`. -/
theorem read_fault_value (K : Hdr) (config : phylink_config) (w w1 w2 w3 w4 w5 : World)
    (st : phylink_link_state) (s1 s2 d b1 b2 : Nat)
    (e1 : xpcs_read K config w K.MDIO_MMD_PCS K.MDIO_STAT1 = ((s1 : Int), w1))
    (e2 : xpcs_read K config w1 K.MDIO_MMD_PCS K.MDIO_STAT2 = ((s2 : Int), w2))
    (e3 : xpcs_read_vendor K config w2 K.MDIO_MMD_PCS DW_VR_XS_PCS_DIG_STS = ((d : Int), w3))
    (e4 : xpcs_read K config w3 K.MDIO_MMD_PCS K.MDIO_PCS_10GBRT_STAT1 = ((b1 : Int), w4))
    (e5 : xpcs_read K config w4 K.MDIO_MMD_PCS K.MDIO_PCS_10GBRT_STAT2 = ((b2 : Int), w5)) :
    (xpcs_read_fault K config w st).1 =
      if s1 &&& K.MDIO_STAT1_FAULT ≠ 0 ∨ s2 &&& K.MDIO_STAT2_RXFAULT ≠ 0 ∨
          s2 &&& K.MDIO_STAT2_TXFAULT ≠ 0 ∨ d.testBit 5 = true ∨ d.testBit 6 = true
      then -(K.EFAULT : Int) else 0 := by
  have n1 : ¬ ((s1 : Int) < 0) := by omega
  have n2 : ¬ ((s2 : Int) < 0) := by omega
  have n3 : ¬ ((d : Int) < 0) := by omega
  have n4 : ¬ ((b1 : Int) < 0) := by omega
  have n5 : ¬ ((b2 : Int) < 0) := by omega
  have hd : d &&& DW_RXFIFO_ERR = 0 ↔ ¬ (d.testBit 5 = true ∨ d.testBit 6 = true) := by
    rw [rxfifo_err_bits]
    simp
  unfold xpcs_read_fault
  rw [e1]
  simp only [Int.toNat_ofNat]
  rw [if_neg n1]
  by_cases f1 : s1 &&& K.MDIO_STAT1_FAULT ≠ 0
  · rw [if_pos f1, if_pos (Or.inl f1)]
  rw [if_neg f1, e2]
  simp only [Int.toNat_ofNat]
  rw [if_neg n2]
  by_cases f2 : s2 &&& K.MDIO_STAT2_RXFAULT ≠ 0
  · rw [if_pos f2, if_pos (Or.inr (Or.inl f2))]
  rw [if_neg f2]
  by_cases f3 : s2 &&& K.MDIO_STAT2_TXFAULT ≠ 0
  · rw [if_pos f3, if_pos (Or.inr (Or.inr (Or.inl f3)))]
  rw [if_neg f3, e3]
  simp only [Int.toNat_ofNat]
  rw [if_neg n3]
  by_cases f4 : d &&& DW_RXFIFO_ERR ≠ 0
  · have hb : d.testBit 5 = true ∨ d.testBit 6 = true := by
      by_contra hc
      exact f4 (hd.mpr hc)
    rw [if_pos f4, if_pos (Or.inr (Or.inr (Or.inr hb)))]
  rw [if_neg f4, e4]
  simp only [Int.toNat_ofNat]
  rw [if_neg n4]
  have hnd := hd.mp (by simpa using f4)
  have hF : ¬ (s1 &&& K.MDIO_STAT1_FAULT ≠ 0 ∨ s2 &&& K.MDIO_STAT2_RXFAULT ≠ 0 ∨
      s2 &&& K.MDIO_STAT2_TXFAULT ≠ 0 ∨ d.testBit 5 = true ∨ d.testBit 6 = true) := by
    intro hc
    rcases hc with hc | hc | hc | hc
    · exact f1 hc
    · exact f2 hc
    · exact f3 hc
    · exact hnd hc
  rw [if_neg hF]
  have htr : (if b1 &&& K.MDIO_PCS_10GBRT_STAT1_BLKLK = 0
      then xpcs_warn w4 st Warning.not_locked else w4).trace = w4.trace := by
    split
    · exact xpcs_warn_trace _ _ _
    · rfl
  have hv := xpcs_read_value_congr K config _ w4 K.MDIO_MMD_PCS K.MDIO_PCS_10GBRT_STAT2 htr
  rw [e5] at hv
  simp only [] at hv
  rcases e5' : xpcs_read K config
      (if b1 &&& K.MDIO_PCS_10GBRT_STAT1_BLKLK = 0
        then xpcs_warn w4 st Warning.not_locked else w4)
      K.MDIO_MMD_PCS K.MDIO_PCS_10GBRT_STAT2 with ⟨r5, w5'⟩
  rw [e5'] at hv
  simp only [] at hv
  subst hv
  simp only []
  rw [if_neg n5]

/-- C16: when the reads of PCS STAT1, PCS STAT2, the vendor digital-status
register and the two 10GBASE-R status registers succeed with the values `s1`,
`s2`, `d`, `b1`, `b2`, `xpcs_read_fault` returns -EFAULT exactly when the fault
bit of `s1`, the receive-fault or transmit-fault bit of `s2`, or bit 5 or 6 of
`d` is set, and 0 otherwise, whatever `b1` and `b2` are; the result is the same
for every link state, so it does not depend on `state.link`. -/
theorem read_fault_classification (K : Hdr) (config : phylink_config)
    (w w1 w2 w3 w4 w5 : World) (s1 s2 d b1 b2 : Nat)
    (e1 : xpcs_read K config w K.MDIO_MMD_PCS K.MDIO_STAT1 = ((s1 : Int), w1))
    (e2 : xpcs_read K config w1 K.MDIO_MMD_PCS K.MDIO_STAT2 = ((s2 : Int), w2))
    (e3 : xpcs_read_vendor K config w2 K.MDIO_MMD_PCS DW_VR_XS_PCS_DIG_STS = ((d : Int), w3))
    (e4 : xpcs_read K config w3 K.MDIO_MMD_PCS K.MDIO_PCS_10GBRT_STAT1 = ((b1 : Int), w4))
    (e5 : xpcs_read K config w4 K.MDIO_MMD_PCS K.MDIO_PCS_10GBRT_STAT2 = ((b2 : Int), w5))
    (hE : 0 < K.EFAULT) :
    (∀ st, (xpcs_read_fault K config w st).1 = -(K.EFAULT : Int) ↔
      (s1 &&& K.MDIO_STAT1_FAULT ≠ 0 ∨ s2 &&& K.MDIO_STAT2_RXFAULT ≠ 0 ∨
        s2 &&& K.MDIO_STAT2_TXFAULT ≠ 0 ∨ d.testBit 5 = true ∨ d.testBit 6 = true)) ∧
    (∀ st, (xpcs_read_fault K config w st).1 = 0 ↔
      ¬ (s1 &&& K.MDIO_STAT1_FAULT ≠ 0 ∨ s2 &&& K.MDIO_STAT2_RXFAULT ≠ 0 ∨
        s2 &&& K.MDIO_STAT2_TXFAULT ≠ 0 ∨ d.testBit 5 = true ∨ d.testBit 6 = true)) ∧
    (∀ st st', (xpcs_read_fault K config w st).1 = (xpcs_read_fault K config w st').1) := by
  refine ⟨?_, ?_, ?_⟩
  · intro st
    rw [read_fault_value K config w w1 w2 w3 w4 w5 st s1 s2 d b1 b2 e1 e2 e3 e4 e5]
    split_ifs with hF
    · exact ⟨fun _ => hF, fun _ => rfl⟩
    · constructor
      · intro h; omega
      · intro h; exact absurd h hF
  · intro st
    rw [read_fault_value K config w w1 w2 w3 w4 w5 st s1 s2 d b1 b2 e1 e2 e3 e4 e5]
    split_ifs with hF
    · constructor
      · intro h; omega
      · intro h; exact absurd hF h
    · exact ⟨fun _ => hF, fun _ => rfl⟩
  · intro st st'
    rw [read_fault_value K config w w1 w2 w3 w4 w5 st s1 s2 d b1 b2 e1 e2 e3 e4 e5,
      read_fault_value K config w w1 w2 w3 w4 w5 st' s1 s2 d b1 b2 e1 e2 e3 e4 e5]

/-- No block lock (10GBASE-R status 1 reads 0) and every error bit set
(10GBASE-R status 2 reads 0xff), the other registers 0: the result is 0. -/
theorem read_fault_classification_witness :
    (xpcs_read_fault linux
      { pcs_bus := regfile_bus (fun regnum => if regnum = 0x40030021 then 0xff else 0),
        pcs_addr := 0, pcs_supported := 0 }
      World.init (state_of 0 0)).1 = 0 :=
  ((read_fault_classification linux
    { pcs_bus := regfile_bus (fun regnum => if regnum = 0x40030021 then 0xff else 0),
      pcs_addr := 0, pcs_supported := 0 }
    World.init _ _ _ _ _ 0 0 0 0 0xff rfl rfl rfl rfl rfl (by decide)).2.1
      (state_of 0 0)).mpr (by decide)

/-! ## Fault recovery -/

/-- The transfers of `xpcs_poll_reset`: between 1 and 12 reads of CTRL1. -/
theorem poll_reset_reads (K : Hdr) (config : phylink_config) (w : World) (dev : Nat) :
    ∃ n, 1 ≤ n ∧ n ≤ 12 ∧
      (xpcs_poll_reset K config w dev).2.trace = w.trace ++
        List.replicate n (Access.rd config.pcs_addr (reg_addr K dev K.MDIO_CTRL1)) := by
  by_cases hex : ∃ k, k < 12 ∧ (poll_read K config dev w k < 0 ∨
      (poll_read K config dev w k).toNat &&& K.MDIO_CTRL1_RESET = 0)
  · have hprev : ∀ i, i < Nat.find hex → 0 ≤ poll_read K config dev w i ∧
        (poll_read K config dev w i).toNat &&& K.MDIO_CTRL1_RESET ≠ 0 := by
      intro i hi
      have hmin := Nat.find_min hex hi
      have hlt : i < 12 := lt_trans hi (Nat.find_spec hex).1
      constructor
      · by_contra hc
        exact hmin ⟨hlt, Or.inl (by omega)⟩
      · intro hc
        exact hmin ⟨hlt, Or.inr hc⟩
    have hk := (Nat.find_spec hex).1
    refine ⟨Nat.find hex + 1, by omega, by omega, ?_⟩
    rw [poll_reset_stop K config w dev (Nat.find hex) (by omega) hprev
      (fun _ => (Nat.find_spec hex).2)]
    exact poll_world_trace K config dev w (Nat.find hex + 1)
  · have hall : ∀ i, i < 11 → 0 ≤ poll_read K config dev w i ∧
        (poll_read K config dev w i).toNat &&& K.MDIO_CTRL1_RESET ≠ 0 := by
      intro i hi
      constructor
      · by_contra hc
        exact hex ⟨i, by omega, Or.inl (by omega)⟩
      · intro hc
        exact hex ⟨i, by omega, Or.inr hc⟩
    refine ⟨12, by omega, by omega, ?_⟩
    rw [poll_reset_stop K config w dev 11 (by omega) hall (fun hlt => absurd hlt (by omega))]
    exact poll_world_trace K config dev w 12

/-- The transfers of a soft reset that returns 0: the write of the reset bit,
then between 1 and 12 reads of CTRL1. -/
theorem soft_reset_trace (K : Hdr) (config : phylink_config) (w w' : World) (dev : Nat)
    (e : xpcs_soft_reset K config w dev = (0, w')) :
    ∃ n, 1 ≤ n ∧ n ≤ 12 ∧
      w'.trace = w.trace ++
        Access.wr config.pcs_addr (reg_addr K dev K.MDIO_CTRL1) (u16 K.MDIO_CTRL1_RESET) ::
          List.replicate n (Access.rd config.pcs_addr (reg_addr K dev K.MDIO_CTRL1)) := by
  unfold xpcs_soft_reset at e
  rcases ew : xpcs_write K config w dev K.MDIO_CTRL1 K.MDIO_CTRL1_RESET with ⟨r, w0⟩
  have htr : w0.trace = w.trace ++
      [Access.wr config.pcs_addr (reg_addr K dev K.MDIO_CTRL1) (u16 K.MDIO_CTRL1_RESET)] :=
    (congrArg (fun r => r.2.trace) ew).symm
  rw [ew] at e
  simp only [] at e
  by_cases hr : r < 0
  · rw [if_pos hr] at e
    have := congrArg Prod.fst e
    simp only [] at this
    omega
  · rw [if_neg hr] at e
    obtain ⟨n, h1, h12, hn⟩ := poll_reset_reads K config w0 dev
    refine ⟨n, h1, h12, ?_⟩
    rw [e] at hn
    simp only [] at hn
    rw [hn, htr]
    simp

/-- The first transfer of `xpcs_config_aneg_c73` is the write of ADV3. -/
theorem config_aneg_c73_starts (K : Hdr) (config : phylink_config) (w : World) :
    ∃ l, (xpcs_config_aneg_c73 K config w).2.trace = w.trace ++
      Access.wr config.pcs_addr (reg_addr K K.MDIO_MMD_AN DW_SR_AN_ADV3)
        (layout_ADV3 K config.pcs_supported) :: l := by
  rw [config_aneg_c73_eq]
  by_cases h3 : (xpcs_write K config w K.MDIO_MMD_AN DW_SR_AN_ADV3
      (layout_ADV3 K config.pcs_supported)).1 < 0
  · rw [if_pos h3]
    refine ⟨[], ?_⟩
    simp only [xpcs_write, mdiobus_write, u16_layout_ADV3]
  · rw [if_neg h3]
    by_cases h2 : (xpcs_write K config
        (xpcs_write K config w K.MDIO_MMD_AN DW_SR_AN_ADV3
          (layout_ADV3 K config.pcs_supported)).2
        K.MDIO_MMD_AN DW_SR_AN_ADV2 (layout_ADV2 K config.pcs_supported)).1 < 0
    · rw [if_pos h2]
      simp only [xpcs_write, mdiobus_write, u16_layout_ADV3, List.append_assoc,
        List.singleton_append]
      exact ⟨_, rfl⟩
    · rw [if_neg h2]
      simp only [xpcs_write, mdiobus_write, u16_layout_ADV3, List.append_assoc,
        List.singleton_append]
      exact ⟨_, rfl⟩

/-- The first transfer of `xpcs_config_aneg` is the write of ADV3. -/
theorem config_aneg_starts (K : Hdr) (config : phylink_config) (w : World) :
    ∃ l, (xpcs_config_aneg K config w).2.trace = w.trace ++
      Access.wr config.pcs_addr (reg_addr K K.MDIO_MMD_AN DW_SR_AN_ADV3)
        (layout_ADV3 K config.pcs_supported) :: l := by
  obtain ⟨l, hl⟩ := config_aneg_c73_starts K config w
  unfold xpcs_config_aneg
  rcases e : xpcs_config_aneg_c73 K config w with ⟨r, w'⟩
  rw [e] at hl
  simp only [] at hl ⊢
  by_cases hr : r < 0
  · rw [if_pos hr]
    exact ⟨l, hl⟩
  · rw [if_neg hr]
    rcases e2 : xpcs_read K config w' K.MDIO_MMD_AN K.MDIO_CTRL1 with ⟨r2, w2⟩
    have h2 : w2.trace = w'.trace ++ [_] := (congrArg (fun r => r.2.trace) e2).symm
    simp only []
    by_cases hr2 : r2 < 0
    · rw [if_pos hr2]
      simp only []
      rw [h2, hl]
      simp only [List.append_assoc, List.cons_append]
      exact ⟨_, rfl⟩
    · rw [if_neg hr2]
      simp only [xpcs_write, mdiobus_write]
      rw [h2, hl]
      simp only [List.append_assoc, List.cons_append]
      exact ⟨_, rfl⟩

/-- C17: in a call of `xpcs_get_state` in which the fault check returns a value
other than 0 and the soft reset returns 0, the transfers after the fault check
are the write of the reset bit to PCS CTRL1, between 1 and 12 reads of PCS
CTRL1, and then the transfers of `xpcs_config_aneg`, which start with the write
of ADV3; the call returns with `link` false, whatever the link read gave, and
with every other field of the state as on entry. -/
theorem get_state_fault_recovery (K : Hdr) (config : phylink_config) (w w1 w2 w3 : World)
    (st : phylink_link_state) (rl rf : Int)
    (e_link : xpcs_read_link K config w = (rl, w1))
    (e_fault : xpcs_read_fault K config w1 { st with link := decide (0 < rl) } = (rf, w2))
    (hrf : rf ≠ 0)
    (e_reset : xpcs_soft_reset K config w2 K.MDIO_MMD_PCS = (0, w3)) :
    xpcs_get_state K config w st =
      ((xpcs_config_aneg K config w3).2, { st with link := false }) ∧
    (∃ n l, 1 ≤ n ∧ n ≤ 12 ∧
      (xpcs_get_state K config w st).1.trace = w2.trace ++
        (Access.wr config.pcs_addr (reg_addr K K.MDIO_MMD_PCS K.MDIO_CTRL1)
            (u16 K.MDIO_CTRL1_RESET) ::
          List.replicate n
            (Access.rd config.pcs_addr (reg_addr K K.MDIO_MMD_PCS K.MDIO_CTRL1))) ++
        (Access.wr config.pcs_addr (reg_addr K K.MDIO_MMD_AN DW_SR_AN_ADV3)
          (layout_ADV3 K config.pcs_supported) :: l)) ∧
    (xpcs_get_state K config w st).2.link = false ∧
    (xpcs_get_state K config w st).2.an_complete = st.an_complete ∧
    (xpcs_get_state K config w st).2.speed = st.speed ∧
    (xpcs_get_state K config w st).2.duplex = st.duplex ∧
    (xpcs_get_state K config w st).2.pause = st.pause ∧
    (xpcs_get_state K config w st).2.lp_advertising = st.lp_advertising ∧
    (xpcs_get_state K config w st).2.advertising = st.advertising := by
  have hrun := get_state_recovered K config w w1 w2 w3 st rl rf e_link e_fault hrf e_reset
  obtain ⟨n, h1, h12, hn⟩ := soft_reset_trace K config w2 w3 K.MDIO_MMD_PCS e_reset
  obtain ⟨l, hl⟩ := config_aneg_starts K config w3
  rw [hrun]
  refine ⟨rfl, ⟨n, l, h1, h12, ?_⟩, rfl, rfl, rfl, rfl, rfl, rfl, rfl⟩
  simp only []
  rw [hl, hn]

/-- The link registers report link up and PCS STAT1 has the fault bit: the
reset bit is written, CTRL1 is read once, autonegotiation is restarted, and
the state comes back with `link` false and nothing else changed. -/
theorem get_state_fault_recovery_witness :
    xpcs_get_state linux faulty_config World.init (state_of 0 0) =
      ({ trace :=
          [Access.rd 0 0x40030001, Access.rd 0 0x40070001, Access.rd 0 0x40030001,
           Access.wr 0 0x40030000 0x8000, Access.rd 0 0x40030000,
           Access.wr 0 0x40070012 0x0, Access.wr 0 0x40070011 0x0,
           Access.wr 0 0x40070010 0x1, Access.rd 0 0x40070000,
           Access.wr 0 0x40070000 0x1200],
         warnings := [Warning.link_fault] },
       state_of 0 0) :=
  (get_state_fault_recovery linux faulty_config World.init _ _ _ (state_of 0 0) 1 (-14)
    rfl rfl (by decide) rfl).1

/-! ## Polling: completion and resolution -/

/-- C18, at the failing input: the link read returns 1, the fault check 0, and
the completion check ends in a read error, returning -5; `xpcs_get_state`
nevertheless sets `an_complete` and overwrites speed (SPEED_UNKNOWN), duplex
(DUPLEX_FULL) and pause (both flags) in a state entered with all of them 0. -/
theorem get_state_error_counts_as_complete :
    (xpcs_read_link linux failing_done_config World.init).1 = 1 ∧
    (xpcs_read_fault linux failing_done_config
      (xpcs_read_link linux failing_done_config World.init).2
      { state_of 0 0 with link := true }).1 = 0 ∧
    (xpcs_aneg_done linux failing_done_config
      (xpcs_read_fault linux failing_done_config
        (xpcs_read_link linux failing_done_config World.init).2
        { state_of 0 0 with link := true }).2
      { state_of 0 0 with link := true }).1 = -5 ∧
    (xpcs_get_state linux failing_done_config World.init (state_of 0 0)).2.an_complete =
      true ∧
    (xpcs_get_state linux failing_done_config World.init (state_of 0 0)).2.speed = -1 ∧
    (xpcs_get_state linux failing_done_config World.init (state_of 0 0)).2.duplex = 1 ∧
    (xpcs_get_state linux failing_done_config World.init (state_of 0 0)).2.pause = 3 := by
  decide

/-! ## Restart of autonegotiation -/

/-- C19: with `r3`, `r2`, `r1`, `rc`, `r5` the results of the write of ADV3, the
write of ADV2, the write of ADV1, the read of AN CTRL1 and the write of AN CTRL1
with the value read OR'd with Enable and Restart, each made after the one
before, `xpcs_config_aneg` returns the first negative one of the first four
right after that transfer, and `r5` after all five transfers when none is
negative; every transfer is made once.  With a 16-bit value read and 16-bit
Enable and Restart masks, the word written is `rc | Enable | Restart`. -/
theorem config_aneg_sequence (K : Hdr) (config : phylink_config)
    (w w3 w2 w1 wc w5 : World) (r3 r2 r1 rc r5 : Int)
    (e3 : xpcs_write K config w K.MDIO_MMD_AN DW_SR_AN_ADV3
      (layout_ADV3 K config.pcs_supported) = (r3, w3))
    (e2 : xpcs_write K config w3 K.MDIO_MMD_AN DW_SR_AN_ADV2
      (layout_ADV2 K config.pcs_supported) = (r2, w2))
    (e1 : xpcs_write K config w2 K.MDIO_MMD_AN DW_SR_AN_ADV1
      (layout_ADV1 K config.pcs_supported) = (r1, w1))
    (ec : xpcs_read K config w1 K.MDIO_MMD_AN K.MDIO_CTRL1 = (rc, wc))
    (e5 : xpcs_write K config wc K.MDIO_MMD_AN K.MDIO_CTRL1
      (rc.toNat ||| (K.MDIO_AN_CTRL1_ENABLE ||| K.MDIO_AN_CTRL1_RESTART)) = (r5, w5))
    (hrc : rc < 65536) (hen : K.MDIO_AN_CTRL1_ENABLE < 65536)
    (hrs : K.MDIO_AN_CTRL1_RESTART < 65536) :
    (xpcs_config_aneg K config w =
      if r3 < 0 then (r3, w3)
      else if r2 < 0 then (r2, w2)
      else if r1 < 0 then (r1, w1)
      else if rc < 0 then (rc, wc)
      else (r5, w5)) ∧
    w3.trace = w.trace ++
      [Access.wr config.pcs_addr (reg_addr K K.MDIO_MMD_AN DW_SR_AN_ADV3)
        (layout_ADV3 K config.pcs_supported)] ∧
    w2.trace = w.trace ++
      [Access.wr config.pcs_addr (reg_addr K K.MDIO_MMD_AN DW_SR_AN_ADV3)
        (layout_ADV3 K config.pcs_supported),
       Access.wr config.pcs_addr (reg_addr K K.MDIO_MMD_AN DW_SR_AN_ADV2)
        (layout_ADV2 K config.pcs_supported)] ∧
    w1.trace = w.trace ++
      [Access.wr config.pcs_addr (reg_addr K K.MDIO_MMD_AN DW_SR_AN_ADV3)
        (layout_ADV3 K config.pcs_supported),
       Access.wr config.pcs_addr (reg_addr K K.MDIO_MMD_AN DW_SR_AN_ADV2)
        (layout_ADV2 K config.pcs_supported),
       Access.wr config.pcs_addr (reg_addr K K.MDIO_MMD_AN DW_SR_AN_ADV1)
        (layout_ADV1 K config.pcs_supported)] ∧
    wc.trace = w.trace ++
      [Access.wr config.pcs_addr (reg_addr K K.MDIO_MMD_AN DW_SR_AN_ADV3)
        (layout_ADV3 K config.pcs_supported),
       Access.wr config.pcs_addr (reg_addr K K.MDIO_MMD_AN DW_SR_AN_ADV2)
        (layout_ADV2 K config.pcs_supported),
       Access.wr config.pcs_addr (reg_addr K K.MDIO_MMD_AN DW_SR_AN_ADV1)
        (layout_ADV1 K config.pcs_supported),
       Access.rd config.pcs_addr (reg_addr K K.MDIO_MMD_AN K.MDIO_CTRL1)] ∧
    w5.trace = w.trace ++
      [Access.wr config.pcs_addr (reg_addr K K.MDIO_MMD_AN DW_SR_AN_ADV3)
        (layout_ADV3 K config.pcs_supported),
       Access.wr config.pcs_addr (reg_addr K K.MDIO_MMD_AN DW_SR_AN_ADV2)
        (layout_ADV2 K config.pcs_supported),
       Access.wr config.pcs_addr (reg_addr K K.MDIO_MMD_AN DW_SR_AN_ADV1)
        (layout_ADV1 K config.pcs_supported),
       Access.rd config.pcs_addr (reg_addr K K.MDIO_MMD_AN K.MDIO_CTRL1),
       Access.wr config.pcs_addr (reg_addr K K.MDIO_MMD_AN K.MDIO_CTRL1)
        (rc.toNat ||| K.MDIO_AN_CTRL1_ENABLE ||| K.MDIO_AN_CTRL1_RESTART)] := by
  have t3 : w3.trace = w.trace ++
      [Access.wr config.pcs_addr (reg_addr K K.MDIO_MMD_AN DW_SR_AN_ADV3)
        (u16 (layout_ADV3 K config.pcs_supported))] :=
    (congrArg (fun r => r.2.trace) e3).symm
  have t2 : w2.trace = w3.trace ++
      [Access.wr config.pcs_addr (reg_addr K K.MDIO_MMD_AN DW_SR_AN_ADV2)
        (u16 (layout_ADV2 K config.pcs_supported))] :=
    (congrArg (fun r => r.2.trace) e2).symm
  have t1 : w1.trace = w2.trace ++
      [Access.wr config.pcs_addr (reg_addr K K.MDIO_MMD_AN DW_SR_AN_ADV1)
        (u16 (layout_ADV1 K config.pcs_supported))] :=
    (congrArg (fun r => r.2.trace) e1).symm
  have tc : wc.trace = w1.trace ++
      [Access.rd config.pcs_addr (reg_addr K K.MDIO_MMD_AN K.MDIO_CTRL1)] :=
    (congrArg (fun r => r.2.trace) ec).symm
  have t5 : w5.trace = wc.trace ++
      [Access.wr config.pcs_addr (reg_addr K K.MDIO_MMD_AN K.MDIO_CTRL1)
        (u16 (rc.toNat ||| (K.MDIO_AN_CTRL1_ENABLE ||| K.MDIO_AN_CTRL1_RESTART)))] :=
    (congrArg (fun r => r.2.trace) e5).symm
  have hword : u16 (rc.toNat ||| (K.MDIO_AN_CTRL1_ENABLE ||| K.MDIO_AN_CTRL1_RESTART)) =
      rc.toNat ||| K.MDIO_AN_CTRL1_ENABLE ||| K.MDIO_AN_CTRL1_RESTART := by
    rw [Nat.lor_assoc]
    unfold u16
    apply Nat.mod_eq_of_lt
    have h1 : rc.toNat < 2 ^ 16 := by omega
    have h2 : K.MDIO_AN_CTRL1_ENABLE < 2 ^ 16 := by omega
    have h3 : K.MDIO_AN_CTRL1_RESTART < 2 ^ 16 := by omega
    exact Nat.or_lt_two_pow h1 (Nat.or_lt_two_pow h2 h3)
  rw [u16_layout_ADV3] at t3
  rw [u16_layout_ADV2, t3] at t2
  rw [u16_layout_ADV1, t2] at t1
  rw [t1] at tc
  rw [hword, tc] at t5
  simp only [List.append_assoc, List.singleton_append, List.cons_append, List.nil_append]
    at t2 t1 tc t5
  refine ⟨?_, t3, t2, t1, tc, t5⟩
  unfold xpcs_config_aneg
  rw [config_aneg_c73_eq, e3]
  simp only []
  by_cases h3 : r3 < 0
  · rw [if_pos h3, if_pos h3]
    simp only []
    rw [if_pos h3]
  rw [if_neg h3, if_neg h3, e2]
  simp only []
  by_cases h2 : r2 < 0
  · rw [if_pos h2, if_pos h2]
    simp only []
    rw [if_pos h2]
  rw [if_neg h2, if_neg h2, e1]
  simp only []
  by_cases h1 : r1 < 0
  · rw [if_pos h1, if_pos h1]
  rw [if_neg h1, if_neg h1, ec]
  simp only []
  by_cases hc : rc < 0
  · rw [if_pos hc, if_pos hc]
  rw [if_neg hc, if_neg hc, e5]

/-- A device that supports 2500baseX_Full, 1000baseKX_Full, 10000baseKR_Full
and Pause, on a bus where every write succeeds and AN CTRL1 reads 0: five
transfers, the last one the write of 0x1200 (Enable | Restart), result 0. -/
theorem config_aneg_sequence_witness :
    xpcs_config_aneg linux partner_config World.init =
      (0,
       { trace :=
          [Access.wr 0 0x40070012 0x1, Access.wr 0 0x40070011 0xa0,
           Access.wr 0 0x40070010 0x401, Access.rd 0 0x40070000,
           Access.wr 0 0x40070000 0x1200],
         warnings := [] }) :=
  (config_aneg_sequence linux partner_config World.init _ _ _ _ _ 0 0 0 0 0
    rfl rfl rfl rfl rfl (by decide) (by decide) (by decide)).1

/-! ## Polling: a healthy poll only reads -/

theorem reads_only_refl (w : World) : reads_only w w :=
  ⟨[], by simp, by simp⟩

theorem reads_only_trans {w w' w'' : World} (h1 : reads_only w w') (h2 : reads_only w' w'') :
    reads_only w w'' := by
  obtain ⟨l1, e1, a1⟩ := h1
  obtain ⟨l2, e2, a2⟩ := h2
  refine ⟨l1 ++ l2, by rw [e2, e1, List.append_assoc], ?_⟩
  intro a ha
  rcases List.mem_append.mp ha with h | h
  · exact a1 a h
  · exact a2 a h

theorem reads_only_of_trace_eq {w w' w'' : World} (h : reads_only w w')
    (e : w''.trace = w'.trace) : reads_only w w'' := by
  obtain ⟨l, e1, a1⟩ := h
  exact ⟨l, by rw [e, e1], a1⟩

theorem reads_only_read (K : Hdr) (config : phylink_config) (w : World) (dev reg : Nat) :
    reads_only w (xpcs_read K config w dev reg).2 :=
  ⟨[Access.rd config.pcs_addr (reg_addr K dev reg)], rfl, by simp [Access.is_read]⟩

theorem reads_only_step (K : Hdr) (config : phylink_config) {w0 w w' : World} (dev reg : Nat)
    (r : Int) (h : reads_only w0 w) (e : xpcs_read K config w dev reg = (r, w')) :
    reads_only w0 w' := by
  have := reads_only_read K config w dev reg
  rw [e] at this
  exact reads_only_trans h this

theorem reads_only_warn {w0 w : World} (st : phylink_link_state) (m : Warning)
    (h : reads_only w0 w) : reads_only w0 (xpcs_warn w st m) :=
  reads_only_of_trace_eq h (xpcs_warn_trace w st m)

theorem read_link_reads_only (K : Hdr) (config : phylink_config) (w : World) :
    reads_only w (xpcs_read_link K config w).2 := by
  unfold xpcs_read_link
  rcases e1 : xpcs_read K config w K.MDIO_MMD_PCS K.MDIO_STAT1 with ⟨r1, w1⟩
  have h1 := reads_only_step K config _ _ r1 (reads_only_refl w) e1
  simp only []
  by_cases n1 : r1 < 0
  · rw [if_pos n1]
    exact h1
  rw [if_neg n1]
  rcases e2 : xpcs_read K config w1 K.MDIO_MMD_AN K.MDIO_STAT1 with ⟨r2, w2⟩
  have h2 := reads_only_step K config _ _ r2 h1 e2
  simp only []
  by_cases n2 : r2 < 0
  · rw [if_pos n2]
    exact h2
  rw [if_neg n2]
  exact h2

theorem read_fault_reads_only (K : Hdr) (config : phylink_config) (w : World)
    (st : phylink_link_state) : reads_only w (xpcs_read_fault K config w st).2 := by
  unfold xpcs_read_fault
  rcases e1 : xpcs_read K config w K.MDIO_MMD_PCS K.MDIO_STAT1 with ⟨r1, w1⟩
  have h1 := reads_only_step K config _ _ r1 (reads_only_refl w) e1
  simp only []
  by_cases n1 : r1 < 0
  · rw [if_pos n1]
    exact h1
  rw [if_neg n1]
  by_cases f1 : r1.toNat &&& K.MDIO_STAT1_FAULT ≠ 0
  · rw [if_pos f1]
    exact reads_only_warn st _ h1
  rw [if_neg f1]
  rcases e2 : xpcs_read K config w1 K.MDIO_MMD_PCS K.MDIO_STAT2 with ⟨r2, w2⟩
  have h2 := reads_only_step K config _ _ r2 h1 e2
  simp only []
  by_cases n2 : r2 < 0
  · rw [if_pos n2]
    exact h2
  rw [if_neg n2]
  by_cases f2 : r2.toNat &&& K.MDIO_STAT2_RXFAULT ≠ 0
  · rw [if_pos f2]
    exact reads_only_warn st _ h2
  rw [if_neg f2]
  by_cases f3 : r2.toNat &&& K.MDIO_STAT2_TXFAULT ≠ 0
  · rw [if_pos f3]
    exact reads_only_warn st _ h2
  rw [if_neg f3]
  rcases e3 : xpcs_read_vendor K config w2 K.MDIO_MMD_PCS DW_VR_XS_PCS_DIG_STS with ⟨r3, w3⟩
  have h3 := reads_only_step K config _ _ r3 h2 e3
  simp only []
  by_cases n3 : r3 < 0
  · rw [if_pos n3]
    exact h3
  rw [if_neg n3]
  by_cases f4 : r3.toNat &&& DW_RXFIFO_ERR ≠ 0
  · rw [if_pos f4]
    exact reads_only_warn st _ h3
  rw [if_neg f4]
  rcases e4 : xpcs_read K config w3 K.MDIO_MMD_PCS K.MDIO_PCS_10GBRT_STAT1 with ⟨r4, w4⟩
  have h4 := reads_only_step K config _ _ r4 h3 e4
  simp only []
  by_cases n4 : r4 < 0
  · rw [if_pos n4]
    exact h4
  rw [if_neg n4]
  have h4' : reads_only w (if r4.toNat &&& K.MDIO_PCS_10GBRT_STAT1_BLKLK = 0
      then xpcs_warn w4 st Warning.not_locked else w4) := by
    split
    · exact reads_only_warn st _ h4
    · exact h4
  rcases e5 : xpcs_read K config
      (if r4.toNat &&& K.MDIO_PCS_10GBRT_STAT1_BLKLK = 0
        then xpcs_warn w4 st Warning.not_locked else w4)
      K.MDIO_MMD_PCS K.MDIO_PCS_10GBRT_STAT2 with ⟨r5, w5⟩
  have h5 := reads_only_step K config _ _ r5 h4' e5
  simp only []
  by_cases n5 : r5 < 0
  · rw [if_pos n5]
    exact h5
  rw [if_neg n5]
  simp only []
  split
  · exact reads_only_warn st _ h5
  · exact h5

theorem aneg_done_reads_only (K : Hdr) (config : phylink_config) (w : World)
    (st : phylink_link_state) : reads_only w (xpcs_aneg_done K config w st).2 := by
  unfold xpcs_aneg_done
  rcases e1 : xpcs_read K config w K.MDIO_MMD_AN K.MDIO_STAT1 with ⟨r1, w1⟩
  have h1 := reads_only_step K config _ _ r1 (reads_only_refl w) e1
  simp only []
  by_cases n1 : r1 < 0
  · rw [if_pos n1]
    exact h1
  rw [if_neg n1]
  by_cases f1 : r1.toNat &&& K.MDIO_AN_STAT1_COMPLETE ≠ 0
  · rw [if_pos f1]
    rcases e2 : xpcs_read K config w1 K.MDIO_MMD_AN DW_SR_AN_LP_ABL1 with ⟨r2, w2⟩
    have h2 := reads_only_step K config _ _ r2 h1 e2
    simp only []
    split_ifs <;> exact h2
  · rw [if_neg f1]
    exact h1

theorem read_lpa_reads_only (K : Hdr) (config : phylink_config) (w : World)
    (st : phylink_link_state) : reads_only w (xpcs_read_lpa K config w st).2.1 := by
  unfold xpcs_read_lpa
  rcases e0 : xpcs_read K config w K.MDIO_MMD_AN K.MDIO_STAT1 with ⟨r0, w0⟩
  have h0 := reads_only_step K config _ _ r0 (reads_only_refl w) e0
  simp only []
  by_cases n0 : r0 < 0
  · rw [if_pos n0]
    exact h0
  rw [if_neg n0]
  by_cases f0 : r0.toNat &&& K.MDIO_AN_STAT1_LPABLE = 0
  · rw [if_pos f0]
    exact h0
  rw [if_neg f0]
  rcases e3 : xpcs_read K config w0 K.MDIO_MMD_AN DW_SR_AN_LP_ABL3 with ⟨r3, w3⟩
  have h3 := reads_only_step K config _ _ r3 h0 e3
  simp only []
  by_cases n3 : r3 < 0
  · rw [if_pos n3]
    exact h3
  rw [if_neg n3]
  rcases e2 : xpcs_read K config w3 K.MDIO_MMD_AN DW_SR_AN_LP_ABL2 with ⟨r2, w2⟩
  have h2 := reads_only_step K config _ _ r2 h3 e2
  simp only []
  by_cases n2 : r2 < 0
  · rw [if_pos n2]
    exact h2
  rw [if_neg n2]
  rcases e1 : xpcs_read K config w2 K.MDIO_MMD_AN DW_SR_AN_LP_ABL1 with ⟨r1, w1⟩
  have h1 := reads_only_step K config _ _ r1 h2 e1
  simp only []
  by_cases n1 : r1 < 0
  · rw [if_pos n1]
    exact h1
  rw [if_neg n1]
  exact h1

/-- C20: in a call of `xpcs_get_state` in which the fault check returns 0, every
transfer made is a register read, whatever the link read and the completion
check give; so a write in the trace of a call means that the fault check did
not return 0. -/
theorem get_state_healthy_read_only (K : Hdr) (config : phylink_config) (w w1 w2 : World)
    (st : phylink_link_state) (rl : Int)
    (e_link : xpcs_read_link K config w = (rl, w1))
    (e_fault : xpcs_read_fault K config w1 { st with link := decide (0 < rl) } = (0, w2)) :
    ∃ l, (xpcs_get_state K config w st).1.trace = w.trace ++ l ∧
      ∀ a ∈ l, Access.is_read a = true := by
  have h1 : reads_only w w1 := by
    have := read_link_reads_only K config w
    rwa [e_link] at this
  have h2 : reads_only w w2 := by
    have := read_fault_reads_only K config w1 { st with link := decide (0 < rl) }
    rw [e_fault] at this
    exact reads_only_trans h1 this
  show reads_only w (xpcs_get_state K config w st).1
  by_cases hl : 0 < rl
  · have hd : decide (0 < rl) = true := by simpa using hl
    rw [hd] at e_fault
    rcases e_done : xpcs_aneg_done K config w2 { st with link := true } with ⟨rd, w3⟩
    have h3 : reads_only w w3 := by
      have := aneg_done_reads_only K config w2 { st with link := true }
      rw [e_done] at this
      exact reads_only_trans h2 this
    by_cases hrd : rd = 0
    · subst hrd
      rw [get_state_healthy_not_done K config w w1 w2 w3 st rl e_link hl e_fault e_done]
      exact h3
    · rw [get_state_resolved K config w w1 w2 w3 st rl rd e_link hl e_fault e_done hrd]
      exact reads_only_trans h3 (read_lpa_reads_only K config w3 _)
  · have hd : decide (0 < rl) = false := by simpa using hl
    rw [hd] at e_fault
    rw [get_state_healthy_down K config w w1 w2 st rl e_link hl e_fault]
    exact h2

/-- A healthy poll with the link up, autonegotiation complete and an able
partner: the transfers are the thirteen reads of the link check, the fault
check, the completion check and the partner words. -/
theorem get_state_healthy_read_only_witness :
    ∃ l, (xpcs_get_state linux resolved_config World.init (state_of 0x20000 0)).1.trace =
        World.init.trace ++ l ∧
      ∀ a ∈ l, Access.is_read a = true :=
  get_state_healthy_read_only linux resolved_config World.init _ _ (state_of 0x20000 0) 1
    rfl rfl

end Xpcs
